import Mathlib

/-!
# Mesh and surface-area utilities and exposure table of `expose_environment.cpp`

A shallow embedding of
`tudatpy/kernel/expose_numerical_simulation/expose_environment.cpp`:

* `tudat::aerodynamics::getTotalSurfaceArea` (lines 60-68),
* `tudat::aerodynamics::getVehicleMesh`      (lines 72-109),
* the registrations made by `expose_environment` (lines 119-505), as a table.

C++ `double` is embedded as IEEE-754 binary64 with round-to-nearest-even,
`unsigned int` as naturals modulo `2^32`, `std::size_t` as naturals modulo
`2^64` (an LP64 platform). The `int` counter of `getTotalSurfaceArea` never
exceeds the `int` part count it is compared with, so it is an integer without
wrap-around.
-/

namespace tudat
namespace aerodynamics

/-! ## C++ `double` -/

/-- A binary64 value. Every finite binary64 number is an integer multiple of
`2^(-1074)`; `fin neg k` stands for `(-1)^neg * k * 2^(-1074)`. -/
inductive Double where
  | nan : Double
  | inf (neg : Bool) : Double
  | fin (neg : Bool) (k : Nat) : Double
  deriving DecidableEq

namespace Double

/-- Number of units of `2^(-1074)` in `2^1024`, the first magnitude that no
finite binary64 value reaches. -/
def overflowThreshold : Nat := 2 ^ 2098

/-- Number of binary digits of `n` (`0` for `0`), by repeated halving; the
first argument bounds the number of halvings. -/
def bitLengthAux : Nat → Nat → Nat
  | 0, _ => 0
  | fuel + 1, n => if n = 0 then 0 else bitLengthAux fuel (n / 2) + 1

/-- Number of binary digits of `n`: the least `b` with `n < 2^b`. -/
def bitLength (n : Nat) : Nat := bitLengthAux n n

/-- Round a magnitude (in units of `2^(-1074)`) to 53 significant bits, ties
to even. Magnitudes below `2^53` units (subnormals and the first normal
binade) are exact. -/
def roundNE (n : Nat) : Nat :=
  if bitLength n ≤ 53 then n
  else
    let s := bitLength n - 53
    let q := n / 2 ^ s
    let r := n % 2 ^ s
    let half := 2 ^ (s - 1)
    let q' := if r < half then q else if half < r then q + 1 else if q % 2 = 0 then q else q + 1
    q' * 2 ^ s

/-- The binary64 value of sign `neg` nearest to the exact magnitude `n`;
overflow gives an infinity. -/
def ofExact (neg : Bool) (n : Nat) : Double :=
  if roundNE n < overflowThreshold then fin neg (roundNE n) else inf neg

/-- C++ `a + b` on `double`. -/
def add : Double → Double → Double
  | nan, _ => nan
  | _, nan => nan
  | inf a, inf b => if a = b then inf a else nan
  | inf a, fin _ _ => inf a
  | fin _ _, inf b => inf b
  | fin a x, fin b y =>
    if a = b then ofExact a (x + y)
    else if x = y then fin false 0
    else if y < x then ofExact a (x - y)
    else ofExact b (y - x)

/-- C++ `std::fabs`. -/
def fabs : Double → Double
  | nan => nan
  | inf _ => inf false
  | fin _ k => fin false k

/-- The literal `0.0`. -/
def zero : Double := fin false 0

/-- The signed count of units of a finite value. -/
def signedUnits (neg : Bool) (k : Nat) : Int := if neg then -(k : Int) else (k : Int)

/-- C++ `a <= b` on `double`: false as soon as one side is NaN. -/
def le : Double → Double → Bool
  | nan, _ => false
  | _, nan => false
  | inf true, _ => true
  | _, inf false => true
  | inf false, _ => false
  | _, inf true => false
  | fin a x, fin b y => decide (signedUnits a x ≤ signedUnits b y)

/-- C++ `a < b` on `double`: false as soon as one side is NaN. -/
def lt : Double → Double → Bool
  | nan, _ => false
  | _, nan => false
  | inf a, inf b => a && !b
  | inf true, fin _ _ => true
  | inf false, fin _ _ => false
  | fin _ _, inf false => true
  | fin _ _, inf true => false
  | fin a x, fin b y => decide (signedUnits a x < signedUnits b y)

/-- The binary64 value of a natural number below `2^53` (exactly representable). -/
def ofNat (n : Nat) : Double := fin false (n * 2 ^ 1074)

end Double

/-! ## The analysis object read by both functions -/

/-- Outcome of running a piece of the C++ code: a normal return, a fault
(a subscript outside an array), or fuel exhausted before the code returned. -/
inductive Outcome (α : Type) where
  | ok (a : α) : Outcome α
  | fault : Outcome α
  | timeout : Outcome α
  deriving DecidableEq

/-- An `Eigen::Vector3d`. -/
structure Vector3d where
  x : Double
  y : Double
  z : Double
  deriving DecidableEq

/-- A `boost::multi_array< T, 2 >`: its two extents and its elements; `elems j k`
is meaningful for `j < shape0` and `k < shape1` only. -/
structure MultiArray (α : Type) where
  shape0 : Nat
  shape1 : Nat
  elems : Nat → Nat → α

/-- Subscripting `a[ j ][ k ]`; a subscript outside the extents is a fault. -/
def MultiArray.at2 {α : Type} (a : MultiArray α) (j k : Nat) : Option α :=
  if j < a.shape0 ∧ k < a.shape1 then some (a.elems j k) else none

/-- A vehicle part, as far as `getTotalSurfaceArea` observes it. -/
structure LawgsPartGeometry where
  getTotalArea : Double
  deriving DecidableEq

/-- The `HypersonicLocalInclinationAnalysis` object behind the shared pointer,
as far as the two functions observe it: its part list and its two lists of
grids. The class belongs to the wrapped library; its state is a parameter here. -/
structure HypersonicLocalInclinationAnalysis where
  vehicleParts : List LawgsPartGeometry
  getMeshPoints : List (MultiArray Vector3d)
  getPanelSurfaceNormals : List (MultiArray Vector3d)

namespace HypersonicLocalInclinationAnalysis

/-- The member `getNumberOfVehicleParts( )`, an `int`. -/
def getNumberOfVehicleParts (g : HypersonicLocalInclinationAnalysis) : Int :=
  (g.vehicleParts.length : Int)

/-- The member `getVehiclePart( i )`; `none` when `i` is not an index of the part list. -/
def getVehiclePart (g : HypersonicLocalInclinationAnalysis) (i : Int) : Option LawgsPartGeometry :=
  if 0 ≤ i then g.vehicleParts.get? i.toNat else none

/-- An analysis object whose parts report the given areas, in order. -/
def ofAreas (areas : List Double) : HypersonicLocalInclinationAnalysis :=
  { vehicleParts := areas.map LawgsPartGeometry.mk, getMeshPoints := [], getPanelSurfaceNormals := [] }

end HypersonicLocalInclinationAnalysis

/-! ## `getTotalSurfaceArea` -/

/-- State of the loop of `getTotalSurfaceArea`: the accumulator and, as a ghost
field, the arguments of the calls made to `getVehiclePart` so far. -/
structure AreaState where
  totalSurfaceArea : Double
  calls : List Int
  deriving DecidableEq

/-- The loop `for( int i = ...; i < n; i++ ) total += fabs( part( i )->getTotalArea( ) )`,
entered at counter `i`. -/
def areaLoop (g : HypersonicLocalInclinationAnalysis) : Nat → Int → AreaState → Outcome AreaState
  | 0, _, _ => Outcome.timeout
  | fuel + 1, i, st =>
    if i < g.getNumberOfVehicleParts then
      match g.getVehiclePart i with
      | none => Outcome.fault
      | some part =>
        areaLoop g fuel (i + 1)
          { totalSurfaceArea := Double.add st.totalSurfaceArea (Double.fabs part.getTotalArea),
            calls := st.calls ++ [i] }
    else Outcome.ok st

/-- The function `getTotalSurfaceArea` together with its calls to `getVehiclePart`.
The counter runs from `0` to the part count, so part count plus one loop tests
are made. -/
def getTotalSurfaceAreaTraced (g : HypersonicLocalInclinationAnalysis) : Outcome AreaState :=
  areaLoop g (g.getNumberOfVehicleParts.toNat + 1) 0 { totalSurfaceArea := Double.zero, calls := [] }

/-- The function `getTotalSurfaceArea`: the value returned. -/
def getTotalSurfaceArea (g : HypersonicLocalInclinationAnalysis) : Outcome Double :=
  match getTotalSurfaceAreaTraced g with
  | Outcome.ok st => Outcome.ok st.totalSurfaceArea
  | Outcome.fault => Outcome.fault
  | Outcome.timeout => Outcome.timeout

/-- One accumulation step, `totalSurfaceArea += std::fabs( a )`. -/
def addFabs (acc a : Double) : Double := Double.add acc (Double.fabs a)

/-- The sum of the absolute values of `areas`, accumulated from `0.0` in list
order with `double` addition. -/
def sumFabs (areas : List Double) : Double := areas.foldl addFabs Double.zero

/-- The sum over `i` in `[0, n)` of `|a i|`, accumulated from `0.0` in index
order with `double` addition. -/
def sumFabsUpTo (a : Nat → Double) (n : Nat) : Double := sumFabs ((List.range n).map a)

/-- The areas reported by the parts of an analysis object, in index order. -/
def HypersonicLocalInclinationAnalysis.areas (g : HypersonicLocalInclinationAnalysis) : List Double :=
  g.vehicleParts.map LawgsPartGeometry.getTotalArea

/-- Magnitude of a finite value in units of `2^(-1074)`; `0` for NaN and infinities. -/
def Double.magnitude : Double → Nat
  | Double.fin _ k => k
  | _ => 0

/-- Whether a value is finite and an integer multiple of `2^(s-1074)`. -/
def Double.onGrid (s : Nat) : Double → Bool
  | Double.fin _ k => k % 2 ^ s == 0
  | _ => false

/-! ## `getVehicleMesh` -/

/-- Number of values of an `unsigned int` (32 bits). -/
def uintModulus : Nat := 2 ^ 32

/-- Number of values of a `std::size_t` (64 bits). -/
def sizeModulus : Nat := 2 ^ 64

/-- The expression `n - 1` evaluated in `std::size_t`: `0 - 1` is `2^64 - 1`. -/
def sizeMinusOne (n : Nat) : Nat := (n + (sizeModulus - 1)) % sizeModulus

/-- The increment `j++` of an `unsigned int`. -/
def uintSucc (j : Nat) : Nat := (j + 1) % uintModulus

/-- The local variables of `getVehicleMesh` that the loops update. The variable
`counter` is written and never read. -/
structure MeshState where
  counter : Int
  meshPointsList : List Vector3d
  surfaceNormalsList : List Vector3d
  deriving DecidableEq

/-- The two reads of the loop body, `meshPoints[ i ][ j ][ k ]` and
`meshSurfaceNormals[ i ][ j ][ k ]`, where `pts` is `meshPoints.at( i )` and
`nrm` is the entry `i` of `meshSurfaceNormals` when there is one. -/
def readCell (pts : MultiArray Vector3d) (nrm : Option (MultiArray Vector3d)) (j k : Nat) :
    Option (Vector3d × Vector3d) :=
  match pts.at2 j k with
  | none => none
  | some p =>
    match nrm with
    | none => none
    | some a =>
      match a.at2 j k with
      | none => none
      | some n => some (p, n)

/-- The two `push_back` calls and `counter++` of the loop body. -/
def MeshState.push (st : MeshState) (c : Vector3d × Vector3d) : MeshState :=
  { counter := st.counter + 1,
    meshPointsList := st.meshPointsList ++ [c.1],
    surfaceNormalsList := st.surfaceNormalsList ++ [c.2] }

/-- The innermost loop, `for( unsigned int k = ...; k < shape( )[ 1 ] - 1; k++ )`,
entered at counter `k`. -/
def meshLoopK (pts : MultiArray Vector3d) (nrm : Option (MultiArray Vector3d)) (j : Nat) :
    Nat → Nat → MeshState → Outcome MeshState
  | 0, _, _ => Outcome.timeout
  | fuel + 1, k, st =>
    if k < sizeMinusOne pts.shape1 then
      match readCell pts nrm j k with
      | none => Outcome.fault
      | some c => meshLoopK pts nrm j fuel (uintSucc k) (st.push c)
    else Outcome.ok st

/-- The middle loop, `for( unsigned int j = ...; j < shape( )[ 0 ] - 1; j++ )`,
entered at counter `j`; `inner` is the fuel handed to each run of the inner loop. -/
def meshLoopJ (pts : MultiArray Vector3d) (nrm : Option (MultiArray Vector3d)) (inner : Nat) :
    Nat → Nat → MeshState → Outcome MeshState
  | 0, _, _ => Outcome.timeout
  | fuel + 1, j, st =>
    if j < sizeMinusOne pts.shape0 then
      match meshLoopK pts nrm j inner 0 st with
      | Outcome.ok st1 => meshLoopJ pts nrm inner fuel (uintSucc j) st1
      | Outcome.fault => Outcome.fault
      | Outcome.timeout => Outcome.timeout
    else Outcome.ok st

/-- The outer loop, `for( unsigned int i = ...; i < meshPoints.size( ); i++ )`,
entered at counter `i`; `inner` is the fuel handed to each run of the loops inside. -/
def meshLoopI (meshPoints meshSurfaceNormals : List (MultiArray Vector3d)) (inner : Nat) :
    Nat → Nat → MeshState → Outcome MeshState
  | 0, _, _ => Outcome.timeout
  | fuel + 1, i, st =>
    if i < meshPoints.length then
      match meshPoints.get? i with
      | none => Outcome.fault
      | some pts =>
        match meshLoopJ pts (meshSurfaceNormals.get? i) inner inner 0 st with
        | Outcome.ok st1 => meshLoopI meshPoints meshSurfaceNormals inner fuel (uintSucc i) st1
        | Outcome.fault => Outcome.fault
        | Outcome.timeout => Outcome.timeout
    else Outcome.ok st

/-- The function `getVehicleMesh`; `fuel` bounds the number of tests that one run
of each of the three loops may make. -/
def getVehicleMesh (fuel : Nat) (localInclinationAnalysis : HypersonicLocalInclinationAnalysis) :
    Outcome (List Vector3d × List Vector3d) :=
  match meshLoopI localInclinationAnalysis.getMeshPoints
      localInclinationAnalysis.getPanelSurfaceNormals fuel fuel 0
      { counter := 0, meshPointsList := [], surfaceNormalsList := [] } with
  | Outcome.ok st => Outcome.ok (st.meshPointsList, st.surfaceNormalsList)
  | Outcome.fault => Outcome.fault
  | Outcome.timeout => Outcome.timeout

/-- An analysis object with the given point grids and normal grids and no parts. -/
def HypersonicLocalInclinationAnalysis.ofMesh (meshPoints meshSurfaceNormals : List (MultiArray Vector3d)) :
    HypersonicLocalInclinationAnalysis :=
  { vehicleParts := [], getMeshPoints := meshPoints, getPanelSurfaceNormals := meshSurfaceNormals }

/-! ## The flattening as the specification words it -/

/-- The pair of extents of a grid. -/
def MultiArray.shape {α : Type} (a : MultiArray α) : Nat × Nat := (a.shape0, a.shape1)

/-- The cells `(j, k)` with `j = 0..R-2` and `k = 0..C-2` of a grid of shape
`R x C`, rows in increasing order and, within a row, columns in increasing order. -/
def interiorCells (shape : Nat × Nat) : List (Nat × Nat) :=
  (List.range (shape.1 - 1)).flatMap fun j => (List.range (shape.2 - 1)).map fun k => (j, k)

/-- The index sequence `(i, j, k)` of the flattening: parts `i` in increasing
order, then the interior cells of grid `i`. -/
def meshCells (shapes : List (Nat × Nat)) : List (Nat × Nat × Nat) :=
  shapes.enum.flatMap fun ig => (interiorCells ig.2).map fun jk => (ig.1, jk.1, jk.2)

/-- The element `grids[ i ][ j ][ k ]`; `none` when a subscript is out of range. -/
def elemAt (grids : List (MultiArray Vector3d)) (c : Nat × Nat × Nat) : Option Vector3d :=
  match grids.get? c.1 with
  | none => none
  | some a => a.at2 c.2.1 c.2.2

/-- The elements of one grid at its interior cells, in row-major order. -/
def flattenGrid (a : MultiArray Vector3d) : List Vector3d :=
  (interiorCells a.shape).map fun jk => a.elems jk.1 jk.2

/-- The pairs read off a point grid and a normal grid at the interior cells of the
point grid, in row-major order. -/
def gridPairs (a b : MultiArray Vector3d) : List (Vector3d × Vector3d) :=
  (interiorCells a.shape).map fun jk => (a.elems jk.1 jk.2, b.elems jk.1 jk.2)

/-- The pairs that belong to part `i`: those of point grid `i` and normal grid `i`
when both exist. -/
def partPairs (meshPoints meshSurfaceNormals : List (MultiArray Vector3d)) (i : Nat) :
    List (Vector3d × Vector3d) :=
  match meshPoints.get? i, meshSurfaceNormals.get? i with
  | some a, some b => gridPairs a b
  | _, _ => []

/-- Point grids and normal grids have matching shapes: as many grids, and the
same extents grid by grid. -/
def MatchingShapes (meshPoints meshSurfaceNormals : List (MultiArray Vector3d)) : Prop :=
  meshPoints.map MultiArray.shape = meshSurfaceNormals.map MultiArray.shape

/-- Every grid has at least one row and one column. -/
def NonEmptyGrids (meshPoints : List (MultiArray Vector3d)) : Prop :=
  ∀ a ∈ meshPoints, 1 ≤ a.shape0 ∧ 1 ≤ a.shape1

/-- The sizes that the `unsigned int` loop counters can run through: fewer than
`2^32` grids, and at most `2^32` rows and `2^32` columns in each grid. -/
def FitsCounters (meshPoints : List (MultiArray Vector3d)) : Prop :=
  meshPoints.length < uintModulus ∧ ∀ a ∈ meshPoints, a.shape0 ≤ uintModulus ∧ a.shape1 ≤ uintModulus

instance (ps ns : List (MultiArray Vector3d)) : Decidable (MatchingShapes ps ns) := by
  unfold MatchingShapes
  infer_instance

instance (ps : List (MultiArray Vector3d)) : Decidable (NonEmptyGrids ps) := by
  unfold NonEmptyGrids
  infer_instance

instance (ps : List (MultiArray Vector3d)) : Decidable (FitsCounters ps) := by
  unfold FitsCounters
  infer_instance

/-- A grid of the given shape all of whose elements are the zero vector. -/
def zeroGrid (rows cols : Nat) : MultiArray Vector3d :=
  { shape0 := rows, shape1 := cols,
    elems := fun _ _ => { x := Double.zero, y := Double.zero, z := Double.zero } }

/-- A grid of the given shape whose element `(j, k)` is the vector `(tag, j, k)`. -/
def sampleGrid (tag rows cols : Nat) : MultiArray Vector3d :=
  { shape0 := rows, shape1 := cols,
    elems := fun j k => { x := Double.ofNat tag, y := Double.ofNat j, z := Double.ofNat k } }

/-- The vector `(a, b, c)` of three small naturals. -/
def vec (a b c : Nat) : Vector3d := { x := Double.ofNat a, y := Double.ofNat b, z := Double.ofNat c }

/-- One patch of `2^32 + 1` rows and one column, with a normal grid of the same shape. -/
def tallMesh : HypersonicLocalInclinationAnalysis :=
  HypersonicLocalInclinationAnalysis.ofMesh [zeroGrid (2 ^ 32 + 1) 1] [zeroGrid (2 ^ 32 + 1) 1]

/-- One patch of shape `0 x 0` (a default-constructed `multi_array`), with a normal
grid of the same shape. -/
def emptyGridMesh : HypersonicLocalInclinationAnalysis :=
  HypersonicLocalInclinationAnalysis.ofMesh [zeroGrid 0 0] [zeroGrid 0 0]

/-- Two patches of shapes `3 x 3` and `2 x 2`, tagged 0 and 1, with normal grids
of the same shapes, tagged 10 and 11. -/
def twoPatchMesh : HypersonicLocalInclinationAnalysis :=
  HypersonicLocalInclinationAnalysis.ofMesh [sampleGrid 0 3 3, sampleGrid 1 2 2]
    [sampleGrid 10 3 3, sampleGrid 11 2 2]

/-- The loop state after the pairs `cs` have been appended, in order. -/
def MeshState.pushAll (st : MeshState) (cs : List (Vector3d × Vector3d)) : MeshState :=
  cs.foldl MeshState.push st

/-! ## Agreement and coverage of grids -/

/-- Two lists of grids agree at every cell `(i, j, k)` with `j <= R_i - 2` and
`k <= C_i - 2`, where `R_i x C_i` is the shape of grid `i` of the first list. -/
def AgreeOnInterior (gs1 gs2 : List (MultiArray Vector3d)) : Prop :=
  ∀ c ∈ meshCells (gs1.map MultiArray.shape), elemAt gs1 c = elemAt gs2 c

instance (gs1 gs2 : List (MultiArray Vector3d)) : Decidable (AgreeOnInterior gs1 gs2) := by
  unfold AgreeOnInterior
  infer_instance

/-- Whether the normals entry of a part covers what the loops read of it: nothing
is asked of a part whose point grid has fewer than 2 rows or fewer than 2
columns; otherwise the entry exists and has at least `R - 1` rows and `C - 1`
columns. -/
def coversPart (a : MultiArray Vector3d) (nb : Option (MultiArray Vector3d)) : Bool :=
  if 2 ≤ a.shape0 ∧ 2 ≤ a.shape1 then
    match nb with
    | none => false
    | some b => decide (a.shape0 - 1 ≤ b.shape0 ∧ a.shape1 - 1 ≤ b.shape1)
  else true

/-- The coverage test of part `i`. -/
def coversAt (meshPoints meshSurfaceNormals : List (MultiArray Vector3d)) (i : Nat) : Bool :=
  match meshPoints.get? i with
  | none => true
  | some a => coversPart a (meshSurfaceNormals.get? i)

/-- For each part `i` whose point grid has `R_i >= 2` rows and `C_i >= 2` columns,
the normals list has an entry at index `i` with at least `R_i - 1` rows and at
least `C_i - 1` columns. -/
def Covers (meshPoints meshSurfaceNormals : List (MultiArray Vector3d)) : Prop :=
  ∀ i, i < meshPoints.length → coversAt meshPoints meshSurfaceNormals i = true

instance (ps ns : List (MultiArray Vector3d)) : Decidable (Covers ps ns) := by
  unfold Covers
  infer_instance

/-- Every pair of reads that the loop guards let through succeeds. -/
def Readable (meshPoints meshSurfaceNormals : List (MultiArray Vector3d)) : Prop :=
  ∀ i a, meshPoints.get? i = some a → ∀ j k, j < sizeMinusOne a.shape0 →
    k < sizeMinusOne a.shape1 → (readCell a (meshSurfaceNormals.get? i) j k).isSome = true

/-- A `2 x 2` grid that equals `sampleGrid 10 2 2` at cell `(0, 0)` and differs from
it in the last row and in the last column. -/
def patchedGrid : MultiArray Vector3d :=
  { shape0 := 2, shape1 := 2, elems := fun j k => if j = 0 ∧ k = 0 then vec 10 0 0 else vec 99 j k }

/-- One `3 x 3` patch with a `2 x 2` normal grid. -/
def shortNormalsMesh : HypersonicLocalInclinationAnalysis :=
  HypersonicLocalInclinationAnalysis.ofMesh [sampleGrid 0 3 3] [sampleGrid 10 2 2]

/-- The same patch with a `2 x 2` normal grid changed in its last row and column. -/
def shortNormalsMeshPatched : HypersonicLocalInclinationAnalysis :=
  HypersonicLocalInclinationAnalysis.ofMesh [sampleGrid 0 3 3] [patchedGrid]

/-- A patch of `2^32 + 1` rows and one column followed by a `3 x 3` patch, and no
normal grid at all. -/
def tallThenBareMesh : HypersonicLocalInclinationAnalysis :=
  HypersonicLocalInclinationAnalysis.ofMesh [zeroGrid (2 ^ 32 + 1) 1, zeroGrid 3 3] []

/-- A `3 x 3` grid that equals `sampleGrid tag 3 3` in rows 0-1 and columns 0-1 and
differs from it in the last row and in the last column. -/
def lastRowPatchedGrid (tag : Nat) : MultiArray Vector3d :=
  { shape0 := 3, shape1 := 3,
    elems := fun j k => if j < 2 ∧ k < 2 then vec tag j k else vec 99 j k }

/-- One `3 x 3` patch with a `3 x 3` normal grid. -/
def lastRowMesh : HypersonicLocalInclinationAnalysis :=
  HypersonicLocalInclinationAnalysis.ofMesh [sampleGrid 0 3 3] [sampleGrid 10 3 3]

/-- The same shapes, both grids changed in their last row and last column. -/
def lastRowMeshPatched : HypersonicLocalInclinationAnalysis :=
  HypersonicLocalInclinationAnalysis.ofMesh [lastRowPatchedGrid 0] [lastRowPatchedGrid 10]

/-! ## Calls through the shared pointer -/

/-- The members of the wrapped library that the two functions call through the
shared pointer, as transformers of the state `σ` the pointer gives access to:
each returns its value and the state it leaves. -/
structure Members (σ : Type) where
  getNumberOfVehicleParts : σ → Int × σ
  getVehiclePartTotalArea : Int → σ → Option Double × σ
  getMeshPoints : σ → List (MultiArray Vector3d) × σ
  getPanelSurfaceNormals : σ → List (MultiArray Vector3d) × σ

/-- The members leave the state as they find it. -/
def Members.ReadOnly {σ : Type} (m : Members σ) : Prop :=
  (∀ s, (m.getNumberOfVehicleParts s).2 = s)
    ∧ (∀ i s, (m.getVehiclePartTotalArea i s).2 = s)
    ∧ (∀ s, (m.getMeshPoints s).2 = s)
    ∧ ∀ s, (m.getPanelSurfaceNormals s).2 = s

/-- The loop of `getTotalSurfaceArea` with the state threaded through every member
call: `getNumberOfVehicleParts( )` at each test, then `getVehiclePart( i )` and
`getTotalArea( )` in the body. -/
def areaLoopOn {σ : Type} (m : Members σ) : Nat → Int → Double → σ → Outcome Double × σ
  | 0, _, _, s => (Outcome.timeout, s)
  | fuel + 1, i, totalSurfaceArea, s =>
    if i < (m.getNumberOfVehicleParts s).1 then
      match m.getVehiclePartTotalArea i (m.getNumberOfVehicleParts s).2 with
      | (none, s2) => (Outcome.fault, s2)
      | (some a, s2) => areaLoopOn m fuel (i + 1) (Double.add totalSurfaceArea (Double.fabs a)) s2
    else (Outcome.ok totalSurfaceArea, (m.getNumberOfVehicleParts s).2)

/-- The function `getTotalSurfaceArea` as a call on the state behind the pointer: the
value returned and the state left. The function has no variable that outlives
the call. -/
def getTotalSurfaceAreaOn {σ : Type} (m : Members σ) (fuel : Nat) (s : σ) : Outcome Double × σ :=
  areaLoopOn m fuel 0 Double.zero s

/-- The function `getVehicleMesh` as a call on the state behind the pointer: the two
grids are copied into locals by the two member calls, and the loops run on the
copies. -/
def getVehicleMeshOn {σ : Type} (m : Members σ) (fuel : Nat) (s : σ) :
    Outcome (List Vector3d × List Vector3d) × σ :=
  let meshPoints := (m.getMeshPoints s).1
  let s1 := (m.getMeshPoints s).2
  let meshSurfaceNormals := (m.getPanelSurfaceNormals s1).1
  let s2 := (m.getPanelSurfaceNormals s1).2
  (match meshLoopI meshPoints meshSurfaceNormals fuel fuel 0
      { counter := 0, meshPointsList := [], surfaceNormalsList := [] } with
    | Outcome.ok st => Outcome.ok (st.meshPointsList, st.surfaceNormalsList)
    | Outcome.fault => Outcome.fault
    | Outcome.timeout => Outcome.timeout, s2)

/-- The members of an analysis object that is itself the state: each reads a field. -/
def objectMembers : Members HypersonicLocalInclinationAnalysis :=
  { getNumberOfVehicleParts := fun g => (g.getNumberOfVehicleParts, g),
    getVehiclePartTotalArea := fun i g =>
      (match g.getVehiclePart i with
        | none => none
        | some part => some part.getTotalArea, g),
    getMeshPoints := fun g => (g.getMeshPoints, g),
    getPanelSurfaceNormals := fun g => (g.getPanelSurfaceNormals, g) }

/-- An analysis object with three parts of areas 1.0, -2.0 and 3.0 and the grids of
`twoPatchMesh`. -/
def sampleAnalysis : HypersonicLocalInclinationAnalysis :=
  { vehicleParts := [{ getTotalArea := Double.ofNat 1 }, { getTotalArea := Double.fin true (2 * 2 ^ 1074) },
      { getTotalArea := Double.ofNat 3 }],
    getMeshPoints := twoPatchMesh.getMeshPoints,
    getPanelSurfaceNormals := twoPatchMesh.getPanelSurfaceNormals }

/-! ## The exposure table of `expose_environment` -/

/-- A default value written after `py::arg( ... ) =`: a string literal, or any
other expression, kept as source text. -/
inductive DefaultValue where
  | text (value : String) : DefaultValue
  | code (source : String) : DefaultValue
  deriving DecidableEq

/-- A declared argument, `py::arg( name )` or `py::arg( name ) = value`. -/
structure PyArg where
  name : String
  defaultValue : Option DefaultValue
  deriving DecidableEq

/-- The kind of a registration: `.def( py::init< ... >( ), ... )`, `.def( name, ... )`,
`.def_property_readonly`, `.def_property`, `m.def` and `.value` of an enumeration. -/
inductive RegistrationKind where
  | init : RegistrationKind
  | method : RegistrationKind
  | propertyReadonly : RegistrationKind
  | property : RegistrationKind
  | function : RegistrationKind
  | enumValue : RegistrationKind
  deriving DecidableEq

/-- One registration of `expose_environment`: the exposed class (the empty string
for a function of the module), the exposed name (none for a constructor, which
the source registers without a name), the native member it refers to (for a
constructor, the parameter types of `py::init`; for a property, the getter), the
setter of a read-write property, and the declared arguments. -/
structure Registration where
  cls : String
  kind : RegistrationKind
  name : Option String
  target : String
  setter : Option String
  args : List PyArg
  deriving DecidableEq

/-- The registrations of `expose_environment` (lines 119-505), in source order.
Registrations inside comments are not part of the table. -/
def exposureTable : List Registration := [
  Registration.mk "AerodynamicCoefficientsIndependentVariables" RegistrationKind.enumValue (some "mach_number_dependent")
    "ta::AerodynamicCoefficientsIndependentVariables::mach_number_dependent"
    none [],
  Registration.mk "AerodynamicCoefficientsIndependentVariables" RegistrationKind.enumValue (some "angle_of_attack_dependent")
    "ta::AerodynamicCoefficientsIndependentVariables::angle_of_attack_dependent"
    none [],
  Registration.mk "AerodynamicCoefficientsIndependentVariables" RegistrationKind.enumValue (some "sideslip_angle_dependent")
    "ta::AerodynamicCoefficientsIndependentVariables::angle_of_sideslip_dependent"
    none [],
  Registration.mk "AerodynamicCoefficientsIndependentVariables" RegistrationKind.enumValue (some "altitude_dependent")
    "ta::AerodynamicCoefficientsIndependentVariables::altitude_dependent"
    none [],
  Registration.mk "AerodynamicCoefficientsIndependentVariables" RegistrationKind.enumValue (some "time_dependent")
    "ta::AerodynamicCoefficientsIndependentVariables::time_dependent"
    none [],
  Registration.mk "AerodynamicCoefficientsIndependentVariables" RegistrationKind.enumValue (some "control_surface_deflection_dependent")
    "ta::AerodynamicCoefficientsIndependentVariables::control_surface_deflection_dependent"
    none [],
  Registration.mk "AerodynamicCoefficientsIndependentVariables" RegistrationKind.enumValue (some "undefined_independent_variable")
    "ta::AerodynamicCoefficientsIndependentVariables::undefined_independent_variable"
    none [],
  Registration.mk "AerodynamicCoefficientInterface" RegistrationKind.propertyReadonly (some "reference_area")
    "ta::AerodynamicCoefficientInterface::getReferenceArea"
    none [],
  Registration.mk "AerodynamicCoefficientInterface" RegistrationKind.propertyReadonly (some "current_force_coefficients")
    "ta::AerodynamicCoefficientInterface::getCurrentForceCoefficients"
    none [],
  Registration.mk "AerodynamicCoefficientInterface" RegistrationKind.propertyReadonly (some "current_moment_coefficients")
    "ta::AerodynamicCoefficientInterface::getCurrentMomentCoefficients"
    none [],
  Registration.mk "AerodynamicCoefficientInterface" RegistrationKind.propertyReadonly (some "current_coefficients")
    "ta::AerodynamicCoefficientInterface::getCurrentAerodynamicCoefficients"
    none [],
  Registration.mk "AerodynamicCoefficientInterface" RegistrationKind.method (some "update_coefficients")
    "ta::AerodynamicCoefficientInterface::updateCurrentCoefficients"
    none
      [PyArg.mk "independent_variables" none,
       PyArg.mk "time" none],
  Registration.mk "" RegistrationKind.function (some "get_default_local_inclination_mach_points")
    "ta::getDefaultHypersonicLocalInclinationMachPoints"
    none
      [PyArg.mk "mach_regime" (some (DefaultValue.text "Full"))],
  Registration.mk "" RegistrationKind.function (some "get_default_local_inclination_angle_of_attack_points")
    "ta::getDefaultHypersonicLocalInclinationAngleOfAttackPoints"
    none [],
  Registration.mk "" RegistrationKind.function (some "get_default_local_inclination_sideslip_angle_points")
    "ta::getDefaultHypersonicLocalInclinationAngleOfSideslipPoints"
    none [],
  Registration.mk "HypersonicLocalInclinationAnalysis" RegistrationKind.init none
    "const std::vector< std::vector< double > >&, const std::shared_ptr< tudat::SurfaceGeometry >, const std::vector< int >&, const std::vector< int >&, const std::vector< bool >&, const std::vector< std::vector< int > >&, const double, const double, const Eigen::Vector3d&, const bool"
    none
      [PyArg.mk "independent_variable_points" none,
       PyArg.mk "body_shape" none,
       PyArg.mk "number_of_lines" none,
       PyArg.mk "number_of_points" none,
       PyArg.mk "invert_orders" none,
       PyArg.mk "selected_methods" none,
       PyArg.mk "reference_area" none,
       PyArg.mk "reference_length" none,
       PyArg.mk "moment_reference_point" none,
       PyArg.mk "save_pressure_coefficients" (some (DefaultValue.code "false"))],
  Registration.mk "" RegistrationKind.function (some "get_local_inclination_total_vehicle_area")
    "ta::getTotalSurfaceArea"
    none
      [PyArg.mk "local_inclination_analysis_object" none],
  Registration.mk "" RegistrationKind.function (some "get_local_inclination_mesh")
    "ta::getVehicleMesh"
    none
      [PyArg.mk "local_inclination_analysis_object" none],
  Registration.mk "AerodynamicsReferenceFrameAngles" RegistrationKind.enumValue (some "latitude_angle")
    "trf::AerodynamicsReferenceFrameAngles::latitude_angle"
    none [],
  Registration.mk "AerodynamicsReferenceFrameAngles" RegistrationKind.enumValue (some "longitude_angle")
    "trf::AerodynamicsReferenceFrameAngles::longitude_angle"
    none [],
  Registration.mk "AerodynamicsReferenceFrameAngles" RegistrationKind.enumValue (some "heading_angle")
    "trf::AerodynamicsReferenceFrameAngles::heading_angle"
    none [],
  Registration.mk "AerodynamicsReferenceFrameAngles" RegistrationKind.enumValue (some "flight_path_angle")
    "trf::AerodynamicsReferenceFrameAngles::flight_path_angle"
    none [],
  Registration.mk "AerodynamicsReferenceFrameAngles" RegistrationKind.enumValue (some "angle_of_attack")
    "trf::AerodynamicsReferenceFrameAngles::angle_of_attack"
    none [],
  Registration.mk "AerodynamicsReferenceFrameAngles" RegistrationKind.enumValue (some "angle_of_sideslip")
    "trf::AerodynamicsReferenceFrameAngles::angle_of_sideslip"
    none [],
  Registration.mk "AerodynamicsReferenceFrameAngles" RegistrationKind.enumValue (some "bank_angle")
    "trf::AerodynamicsReferenceFrameAngles::bank_angle"
    none [],
  Registration.mk "AerodynamicsReferenceFrames" RegistrationKind.enumValue (some "inertial_frame")
    "trf::AerodynamicsReferenceFrames::inertial_frame"
    none [],
  Registration.mk "AerodynamicsReferenceFrames" RegistrationKind.enumValue (some "corotating_frame")
    "trf::AerodynamicsReferenceFrames::corotating_frame"
    none [],
  Registration.mk "AerodynamicsReferenceFrames" RegistrationKind.enumValue (some "vertical_frame")
    "trf::AerodynamicsReferenceFrames::vertical_frame"
    none [],
  Registration.mk "AerodynamicsReferenceFrames" RegistrationKind.enumValue (some "trajectory_frame")
    "trf::AerodynamicsReferenceFrames::trajectory_frame"
    none [],
  Registration.mk "AerodynamicsReferenceFrames" RegistrationKind.enumValue (some "aerodynamic_frame")
    "trf::AerodynamicsReferenceFrames::aerodynamic_frame"
    none [],
  Registration.mk "AerodynamicsReferenceFrames" RegistrationKind.enumValue (some "body_frame")
    "trf::AerodynamicsReferenceFrames::body_frame"
    none [],
  Registration.mk "AerodynamicAngleCalculator" RegistrationKind.method (some "set_body_orientation_angle_functions")
    "py::overload_cast<const std::function<double()>,const std::function<double()>,const std::function<double()>,const std::function<void(const double)>>(&trf::AerodynamicAngleCalculator::setOrientationAngleFunctions)"
    none
      [PyArg.mk "angle_of_attack_function" (some (DefaultValue.code "std::function<double()>()")),
       PyArg.mk "angle_of_sideslip_function" (some (DefaultValue.code "std::function<double()>()")),
       PyArg.mk "bank_angle_function" (some (DefaultValue.code "std::function<double()>()")),
       PyArg.mk "angle_update_function" (some (DefaultValue.code "std::function<void( const double)>()"))],
  Registration.mk "AerodynamicAngleCalculator" RegistrationKind.method (some "set_body_orientation_angles")
    "py::overload_cast<const double,const double,const double>(&trf::AerodynamicAngleCalculator::setOrientationAngleFunctions)"
    none
      [PyArg.mk "angle_of_attack" (some (DefaultValue.code "TUDAT_NAN")),
       PyArg.mk "angle_of_sideslip" (some (DefaultValue.code "TUDAT_NAN")),
       PyArg.mk "bank_angle" (some (DefaultValue.code "TUDAT_NAN"))],
  Registration.mk "AerodynamicAngleCalculator" RegistrationKind.method (some "get_rotation_matrix_between_frames")
    "trf::AerodynamicAngleCalculator::getRotationMatrixBetweenFrames"
    none
      [PyArg.mk "original_frame" none,
       PyArg.mk "target_frame" none],
  Registration.mk "AerodynamicAngleCalculator" RegistrationKind.method (some "get_angle")
    "trf::AerodynamicAngleCalculator::getAerodynamicAngle"
    none
      [PyArg.mk "angle_type" none],
  Registration.mk "FlightConditions" RegistrationKind.propertyReadonly (some "aerodynamic_angle_calculator")
    "ta::FlightConditions::getAerodynamicAngleCalculator"
    none [],
  Registration.mk "FlightConditions" RegistrationKind.propertyReadonly (some "longitude")
    "ta::FlightConditions::getCurrentLongitude"
    none [],
  Registration.mk "FlightConditions" RegistrationKind.propertyReadonly (some "geodetic_latitude")
    "ta::FlightConditions::getCurrentGeodeticLatitude"
    none [],
  Registration.mk "FlightConditions" RegistrationKind.propertyReadonly (some "time")
    "ta::FlightConditions::getCurrentTime"
    none [],
  Registration.mk "FlightConditions" RegistrationKind.propertyReadonly (some "body_centered_body_fixed_state")
    "ta::FlightConditions::getCurrentBodyCenteredBodyFixedState"
    none [],
  Registration.mk "FlightConditions" RegistrationKind.propertyReadonly (some "altitude")
    "ta::FlightConditions::getCurrentAltitude"
    none [],
  Registration.mk "AtmosphericFlightConditions" RegistrationKind.propertyReadonly (some "density")
    "ta::AtmosphericFlightConditions::getCurrentDensity"
    none [],
  Registration.mk "AtmosphericFlightConditions" RegistrationKind.propertyReadonly (some "temperature")
    "ta::AtmosphericFlightConditions::getCurrentFreestreamTemperature"
    none [],
  Registration.mk "AtmosphericFlightConditions" RegistrationKind.propertyReadonly (some "dynamic_pressure")
    "ta::AtmosphericFlightConditions::getCurrentDynamicPressure"
    none [],
  Registration.mk "AtmosphericFlightConditions" RegistrationKind.propertyReadonly (some "pressure")
    "ta::AtmosphericFlightConditions::getCurrentPressure"
    none [],
  Registration.mk "AtmosphericFlightConditions" RegistrationKind.propertyReadonly (some "airspeed")
    "ta::AtmosphericFlightConditions::getCurrentAirspeed"
    none [],
  Registration.mk "AtmosphericFlightConditions" RegistrationKind.propertyReadonly (some "mach_number")
    "ta::AtmosphericFlightConditions::getCurrentMachNumber"
    none [],
  Registration.mk "AtmosphericFlightConditions" RegistrationKind.propertyReadonly (some "airspeed_velocity")
    "ta::AtmosphericFlightConditions::getCurrentAirspeedBasedVelocity"
    none [],
  Registration.mk "AtmosphericFlightConditions" RegistrationKind.propertyReadonly (some "speed_of_sound")
    "ta::AtmosphericFlightConditions::getCurrentSpeedOfSound"
    none [],
  Registration.mk "AtmosphericFlightConditions" RegistrationKind.propertyReadonly (some "aero_coefficient_independent_variables")
    "ta::AtmosphericFlightConditions::getAerodynamicCoefficientIndependentVariables"
    none [],
  Registration.mk "AtmosphericFlightConditions" RegistrationKind.propertyReadonly (some "control_surface_aero_coefficient_independent_variables")
    "ta::AtmosphericFlightConditions::getControlSurfaceAerodynamicCoefficientIndependentVariables"
    none [],
  Registration.mk "AtmosphericFlightConditions" RegistrationKind.propertyReadonly (some "aerodynamic_coefficient_interface")
    "ta::AtmosphericFlightConditions::getAerodynamicCoefficientInterface"
    none [],
  Registration.mk "Ephemeris" RegistrationKind.method (some "cartesian_state")
    "te::Ephemeris::getCartesianState"
    none
      [PyArg.mk "seconds_since_epoch" (some (DefaultValue.code "0.0"))],
  Registration.mk "Ephemeris" RegistrationKind.method (some "cartesian_position")
    "te::Ephemeris::getCartesianPosition"
    none
      [PyArg.mk "seconds_since_epoch" (some (DefaultValue.code "0.0"))],
  Registration.mk "Ephemeris" RegistrationKind.method (some "cartesian_velocity")
    "te::Ephemeris::getCartesianVelocity"
    none
      [PyArg.mk "seconds_since_epoch" (some (DefaultValue.code "0.0"))],
  Registration.mk "ConstantEphemeris" RegistrationKind.init none
    "const std::function<Eigen::Vector6d()>, const std::string &, const std::string &"
    none
      [PyArg.mk "constant_state_function" none,
       PyArg.mk "reference_frame_origin" (some (DefaultValue.text "SSB")),
       PyArg.mk "reference_frame_orientation" (some (DefaultValue.text "ECLIPJ2000"))],
  Registration.mk "ConstantEphemeris" RegistrationKind.init none
    "const Eigen::Vector6d, const std::string &, const std::string &"
    none
      [PyArg.mk "constant_state" none,
       PyArg.mk "reference_frame_origin" (some (DefaultValue.text "SSB")),
       PyArg.mk "reference_frame_orientation" (some (DefaultValue.text "ECLIPJ2000"))],
  Registration.mk "ConstantEphemeris" RegistrationKind.method (some "update_constant_state")
    "te::ConstantEphemeris::updateConstantState"
    none
      [PyArg.mk "new_state" none],
  Registration.mk "TabulatedEphemeris" RegistrationKind.method (some "reset_interpolator")
    "te::TabulatedCartesianEphemeris<double,double>::resetInterpolator"
    none
      [PyArg.mk "interpolator" none],
  Registration.mk "Tle" RegistrationKind.init none
    "const std::string &"
    none
      [PyArg.mk "lines" none],
  Registration.mk "Tle" RegistrationKind.init none
    "const std::string &, const std::string &"
    none
      [PyArg.mk "line_1" none,
       PyArg.mk "line_2" none],
  Registration.mk "Tle" RegistrationKind.method (some "get_epoch")
    "te::Tle::getEpoch"
    none [],
  Registration.mk "Tle" RegistrationKind.method (some "get_b_star")
    "te::Tle::getBStar"
    none [],
  Registration.mk "Tle" RegistrationKind.method (some "get_epoch")
    "te::Tle::getEpoch"
    none [],
  Registration.mk "Tle" RegistrationKind.method (some "get_inclination")
    "te::Tle::getInclination"
    none [],
  Registration.mk "Tle" RegistrationKind.method (some "get_right_ascension")
    "te::Tle::getRightAscension"
    none [],
  Registration.mk "Tle" RegistrationKind.method (some "get_eccentricity")
    "te::Tle::getEccentricity"
    none [],
  Registration.mk "Tle" RegistrationKind.method (some "get_arg_of_perigee")
    "te::Tle::getArgOfPerigee"
    none [],
  Registration.mk "Tle" RegistrationKind.method (some "get_mean_anomaly")
    "te::Tle::getMeanAnomaly"
    none [],
  Registration.mk "Tle" RegistrationKind.method (some "get_mean_motion")
    "te::Tle::getMeanMotion"
    none [],
  Registration.mk "TleEphemeris" RegistrationKind.init none
    "const std::string &, const std::string &, const std::shared_ptr<te::Tle>, const bool"
    none
      [PyArg.mk "frame_origin" (some (DefaultValue.text "Earth")),
       PyArg.mk "frame_orientation" (some (DefaultValue.text "J2000")),
       PyArg.mk "tle" (some (DefaultValue.code "nullptr")),
       PyArg.mk "use_sdp" (some (DefaultValue.code "false"))],
  Registration.mk "" RegistrationKind.function (some "transform_to_inertial_orientation")
    "te::transformStateToInertialOrientation<double,double>"
    none
      [PyArg.mk "state_in_body_fixed_frame" none,
       PyArg.mk "current_time" none,
       PyArg.mk "rotational_ephemeris" none],
  Registration.mk "DirectLongitudeLibrationCalculator" RegistrationKind.init none
    "const double"
    none
      [PyArg.mk "scaled_libration_amplitude" none],
  Registration.mk "SynchronousRotationalEphemeris" RegistrationKind.property (some "libration_calculator")
    "te::SynchronousRotationalEphemeris::getLongitudeLibrationCalculator"
    (some "te::SynchronousRotationalEphemeris::setLibrationCalculation") [],
  Registration.mk "GravityFieldModel" RegistrationKind.init none
    "const double, const std::function<void()>"
    none
      [PyArg.mk "gravitational_parameter" none,
       PyArg.mk "update_inertia_tensor" (some (DefaultValue.code "std::function<void()>()"))],
  Registration.mk "GravityFieldModel" RegistrationKind.method (some "get_gravitational_parameter")
    "tg::GravityFieldModel::getGravitationalParameter"
    none [],
  Registration.mk "GravityFieldModel" RegistrationKind.property (some "gravitational_parameter")
    "tg::GravityFieldModel::getGravitationalParameter"
    (some "tg::GravityFieldModel::resetGravitationalParameter") [],
  Registration.mk "SphericalHarmonicsGravityField" RegistrationKind.propertyReadonly (some "reference_radius")
    "tg::SphericalHarmonicsGravityField::getReferenceRadius"
    none [],
  Registration.mk "SphericalHarmonicsGravityField" RegistrationKind.propertyReadonly (some "maximum_degree")
    "tg::SphericalHarmonicsGravityField::getDegreeOfExpansion"
    none [],
  Registration.mk "SphericalHarmonicsGravityField" RegistrationKind.propertyReadonly (some "maximum_order")
    "tg::SphericalHarmonicsGravityField::getOrderOfExpansion"
    none [],
  Registration.mk "SphericalHarmonicsGravityField" RegistrationKind.property (some "cosine_coefficients")
    "tg::SphericalHarmonicsGravityField::getCosineCoefficients"
    (some "tg::SphericalHarmonicsGravityField::setCosineCoefficients") [],
  Registration.mk "SphericalHarmonicsGravityField" RegistrationKind.property (some "sine_coefficients")
    "tg::SphericalHarmonicsGravityField::getSineCoefficients"
    (some "tg::SphericalHarmonicsGravityField::setSineCoefficients") [],
  Registration.mk "ShapeModel" RegistrationKind.method (some "get_average_radius")
    "tba::BodyShapeModel::getAverageRadius"
    none [],
  Registration.mk "ShapeModel" RegistrationKind.propertyReadonly (some "average_radius")
    "tba::BodyShapeModel::getAverageRadius"
    none [],
  Registration.mk "GroundStation" RegistrationKind.propertyReadonly (some "pointing_angles_calculator")
    "tgs::GroundStation::getPointingAnglesCalculator"
    none [],
  Registration.mk "PointingAnglesCalculator" RegistrationKind.method (some "calculate_elevation_angle")
    "tgs::PointingAnglesCalculator::calculateElevationAngle"
    none
      [PyArg.mk "inertial_vector_to_target" none,
       PyArg.mk "time" none],
  Registration.mk "PointingAnglesCalculator" RegistrationKind.method (some "calculate_azimuth_angle")
    "tgs::PointingAnglesCalculator::calculateAzimuthAngle"
    none
      [PyArg.mk "inertial_vector_to_target" none,
       PyArg.mk "time" none],
  Registration.mk "PointingAnglesCalculator" RegistrationKind.method (some "convert_inertial_vector_to_topocentric")
    "tgs::PointingAnglesCalculator::convertVectorFromInertialToTopocentricFrame"
    none
      [PyArg.mk "inertial_vector" none,
       PyArg.mk "time" none],
  Registration.mk "Body" RegistrationKind.property (some "ephemeris_frame_to_base_frame")
    "tss::Body::getEphemerisFrameToBaseFrame"
    (some "tss::Body::setEphemerisFrameToBaseFrame") [],
  Registration.mk "Body" RegistrationKind.propertyReadonly (some "state")
    "tss::Body::getState"
    none [],
  Registration.mk "Body" RegistrationKind.propertyReadonly (some "position")
    "tss::Body::getPosition"
    none [],
  Registration.mk "Body" RegistrationKind.propertyReadonly (some "velocity")
    "tss::Body::getVelocity"
    none [],
  Registration.mk "Body" RegistrationKind.propertyReadonly (some "inertial_to_body_fixed_frame")
    "tss::Body::getCurrentRotationMatrixToLocalFrame"
    none [],
  Registration.mk "Body" RegistrationKind.propertyReadonly (some "body_fixed_to_inertial_frame")
    "tss::Body::getCurrentRotationMatrixToGlobalFrame"
    none [],
  Registration.mk "Body" RegistrationKind.propertyReadonly (some "inertial_to_body_fixed_frame_derivative")
    "tss::Body::getCurrentRotationMatrixDerivativeToLocalFrame"
    none [],
  Registration.mk "Body" RegistrationKind.propertyReadonly (some "body_fixed_to_inertial_frame_derivative")
    "tss::Body::getCurrentRotationMatrixDerivativeToGlobalFrame"
    none [],
  Registration.mk "Body" RegistrationKind.propertyReadonly (some "inertial_angular_velocity")
    "tss::Body::getCurrentAngularVelocityVectorInGlobalFrame"
    none [],
  Registration.mk "Body" RegistrationKind.propertyReadonly (some "body_fixed_angular_velocity")
    "tss::Body::getCurrentAngularVelocityVectorInLocalFrame"
    none [],
  Registration.mk "Body" RegistrationKind.property (some "mass")
    "tss::Body::getBodyMass"
    (some "tss::Body::setConstantBodyMass") [],
  Registration.mk "Body" RegistrationKind.property (some "inertia_tensor")
    "tss::Body::getBodyInertiaTensor"
    (some "py::overload_cast<const Eigen::Matrix3d&>(&tss::Body::setBodyInertiaTensor)") [],
  Registration.mk "Body" RegistrationKind.propertyReadonly (some "state_in_base_frame_from_ephemeris")
    "tss::Body::getStateInBaseFrameFromEphemeris<double,double>"
    none [],
  Registration.mk "Body" RegistrationKind.property (some "ephemeris")
    "tss::Body::getEphemeris"
    (some "tss::Body::setEphemeris") [],
  Registration.mk "Body" RegistrationKind.property (some "atmosphere_model")
    "tss::Body::getAtmosphereModel"
    (some "tss::Body::setAtmosphereModel") [],
  Registration.mk "Body" RegistrationKind.property (some "shape_model")
    "tss::Body::getShapeModel"
    (some "tss::Body::setShapeModel") [],
  Registration.mk "Body" RegistrationKind.property (some "gravity_field_model")
    "tss::Body::getGravityFieldModel"
    (some "tss::Body::setGravityFieldModel") [],
  Registration.mk "Body" RegistrationKind.property (some "aerodynamic_coefficient_interface")
    "tss::Body::getAerodynamicCoefficientInterface"
    (some "tss::Body::setAerodynamicCoefficientInterface") [],
  Registration.mk "Body" RegistrationKind.property (some "flight_conditions")
    "tss::Body::getFlightConditions"
    (some "tss::Body::setFlightConditions") [],
  Registration.mk "Body" RegistrationKind.property (some "rotation_model")
    "tss::Body::getRotationalEphemeris"
    (some "tss::Body::setRotationalEphemeris") [],
  Registration.mk "Body" RegistrationKind.propertyReadonly (some "gravitational_parameter")
    "tss::Body::getGravitationalParameter"
    none [],
  Registration.mk "SystemOfBodies" RegistrationKind.method (some "get")
    "tss::SystemOfBodies::getBody"
    none
      [PyArg.mk "body_name" none],
  Registration.mk "SystemOfBodies" RegistrationKind.method (some "create_empty_body")
    "tss::SystemOfBodies::createEmptyBody"
    none
      [PyArg.mk "body_name" none,
       PyArg.mk "process_body" (some (DefaultValue.code "1"))],
  Registration.mk "SystemOfBodies" RegistrationKind.method (some "add_body")
    "tss::SystemOfBodies::addBody"
    none
      [PyArg.mk "body_to_add" none,
       PyArg.mk "body_name" none,
       PyArg.mk "process_body" (some (DefaultValue.code "1"))],
  Registration.mk "SystemOfBodies" RegistrationKind.method (some "remove_body")
    "tss::SystemOfBodies::deleteBody"
    none
      [PyArg.mk "body_name" none]]

/-- The registration that a name of a class resolves to when the first
registration of the name is the one consulted. -/
def resolveFirst (table : List Registration) (cls name : String) : Option Registration :=
  table.find? fun r => r.cls == cls && r.name == some name

/-- The registration that a name of a class resolves to when a later registration
of the name replaces an earlier one. -/
def resolveLast (table : List Registration) (cls name : String) : Option Registration :=
  table.reverse.find? fun r => r.cls == cls && r.name == some name

/-- Any two registrations of one name under one class are the same registration:
same kind, same native member, same setter, same arguments. -/
def ConsistentNames (table : List Registration) : Prop :=
  ∀ r1 ∈ table, ∀ r2 ∈ table, r1.cls = r2.cls → r1.name = r2.name → r1.name ≠ none → r1 = r2

instance (table : List Registration) : Decidable (ConsistentNames table) := by
  unfold ConsistentNames
  infer_instance

/-- The values forwarded to the native callable by a call that gives `positional`
values for the first declared arguments and `keywords` for others: an argument
that the call omits takes its declared default, and a call that omits an
argument without default, or gives a value twice or too many values, is
refused. -/
def forwardedArgs {β : Type} : List PyArg → List β → List (String × β) →
    Option (List (β ⊕ DefaultValue))
  | [], [], _ => some []
  | [], _ :: _, _ => none
  | a :: rest, p :: ps, keywords =>
    match keywords.lookup a.name with
    | some _ => none
    | none =>
      match forwardedArgs rest ps keywords with
      | none => none
      | some vs => some (Sum.inl p :: vs)
  | a :: rest, [], keywords =>
    match keywords.lookup a.name, a.defaultValue with
    | some v, _ =>
      match forwardedArgs rest [] keywords with
      | none => none
      | some vs => some (Sum.inl v :: vs)
    | none, some d =>
      match forwardedArgs rest [] keywords with
      | none => none
      | some vs => some (Sum.inr d :: vs)
    | none, none => none

/-- The constructor registrations of `ConstantEphemeris`. -/
def constantEphemerisInits : List Registration :=
  exposureTable.filter fun r => r.cls == "ConstantEphemeris" && r.kind == RegistrationKind.init

/-! ## Theorems -/

set_option exponentiation.threshold 4000

/-! ### Rounding -/

namespace Double

theorem bitLengthAux_zero (fuel : Nat) : bitLengthAux fuel 0 = 0 := by
  cases fuel <;> simp [bitLengthAux]

theorem bitLengthAux_bounds : ∀ (fuel n : Nat), n ≤ fuel →
    n < 2 ^ bitLengthAux fuel n ∧ (n ≠ 0 → 2 ^ (bitLengthAux fuel n - 1) ≤ n) := by
  intro fuel
  induction fuel with
  | zero =>
    intro n hn
    have h0 : n = 0 := by omega
    subst h0
    simp [bitLengthAux]
  | succ f ih =>
    intro n hn
    by_cases h0 : n = 0
    · subst h0
      simp [bitLengthAux]
    · have hhalf : n / 2 ≤ f := by omega
      obtain ⟨hlt, hge⟩ := ih (n / 2) hhalf
      simp only [bitLengthAux, h0, if_false, Nat.add_sub_cancel]
      refine ⟨?_, fun _ => ?_⟩
      · rw [pow_succ]
        omega
      · by_cases h1 : n / 2 = 0
        · rw [h1, bitLengthAux_zero]
          simp
          omega
        · have hb := hge h1
          have hpos : bitLengthAux f (n / 2) ≠ 0 := by
            intro hz
            rw [hz] at hlt
            simp at hlt
            exact h1 hlt
          obtain ⟨c, hc⟩ := Nat.exists_eq_succ_of_ne_zero hpos
          rw [hc] at hb ⊢
          simp only [Nat.succ_sub_one] at hb
          rw [pow_succ]
          omega

theorem lt_two_pow_bitLength (n : Nat) : n < 2 ^ bitLength n :=
  (bitLengthAux_bounds n n (Nat.le_refl n)).1

theorem two_pow_bitLength_le (n : Nat) (h : n ≠ 0) : 2 ^ (bitLength n - 1) ≤ n :=
  (bitLengthAux_bounds n n (Nat.le_refl n)).2 h

end Double

namespace Double

theorem roundNE_of_dvd (n : Nat) (h : 2 ^ (bitLength n - 53) ∣ n) : roundNE n = n := by
  unfold roundNE
  by_cases hb : bitLength n ≤ 53
  · simp [hb]
  · have hmod : n % 2 ^ (bitLength n - 53) = 0 := Nat.mod_eq_zero_of_dvd h
    have hhalf : 0 < 2 ^ (bitLength n - 53 - 1) := Nat.pow_pos (by decide)
    simp only [hb, if_false, hmod, hhalf, if_true]
    exact Nat.div_mul_cancel h

theorem roundNE_mul_two_pow (M s : Nat) (hM : M ≤ 2 ^ 53) : roundNE (M * 2 ^ s) = M * 2 ^ s := by
  apply roundNE_of_dvd
  by_cases hb : bitLength (M * 2 ^ s) ≤ 53
  · have : bitLength (M * 2 ^ s) - 53 = 0 := by omega
    rw [this]
    simp
  · have hn0 : M * 2 ^ s ≠ 0 := by
      intro h0
      rw [h0] at hb
      exact hb (by decide)
    have hlo := two_pow_bitLength_le _ hn0
    have hhi : M * 2 ^ s ≤ 2 ^ (53 + s) := by
      rw [pow_add]
      exact Nat.mul_le_mul_right _ hM
    have hexp : bitLength (M * 2 ^ s) - 1 ≤ 53 + s :=
      (Nat.pow_le_pow_iff_right (by decide)).1 (le_trans hlo hhi)
    by_cases ht : bitLength (M * 2 ^ s) - 53 ≤ s
    · exact Dvd.dvd.mul_left (pow_dvd_pow 2 ht) M
    · have hb1 : bitLength (M * 2 ^ s) - 1 = 53 + s := by omega
      rw [hb1] at hlo
      have heq : M * 2 ^ s = 2 ^ (53 + s) := le_antisymm hhi hlo
      have ht1 : bitLength (M * 2 ^ s) - 53 = s + 1 := by omega
      rw [ht1, heq]
      apply pow_dvd_pow
      omega

end Double

theorem areaLoop_from (g : HypersonicLocalInclinationAnalysis) :
    ∀ (fuel k : Nat) (st : AreaState), k ≤ g.vehicleParts.length →
      g.vehicleParts.length - k < fuel →
      areaLoop g fuel (k : Int) st = Outcome.ok
        { totalSurfaceArea := ((g.vehicleParts.drop k).map LawgsPartGeometry.getTotalArea).foldl addFabs
            st.totalSurfaceArea,
          calls := st.calls ++ (List.range' k (g.vehicleParts.length - k)).map Int.ofNat } := by
  intro fuel
  induction fuel with
  | zero => intro k st _ h; omega
  | succ f ih =>
    intro k st hk hf
    by_cases hlt : k < g.vehicleParts.length
    · have hcond : (k : Int) < g.getNumberOfVehicleParts := by
        unfold HypersonicLocalInclinationAnalysis.getNumberOfVehicleParts
        exact_mod_cast hlt
      have hget : g.getVehiclePart (k : Int) = some (g.vehicleParts.get ⟨k, hlt⟩) := by
        unfold HypersonicLocalInclinationAnalysis.getVehiclePart
        simp [List.getElem?_eq_getElem hlt]
      have hdrop : g.vehicleParts.drop k = g.vehicleParts.get ⟨k, hlt⟩ :: g.vehicleParts.drop (k + 1) := by
        simp
      have hrange : List.range' k (g.vehicleParts.length - k)
          = k :: List.range' (k + 1) (g.vehicleParts.length - (k + 1)) := by
        have : g.vehicleParts.length - k = (g.vehicleParts.length - (k + 1)) + 1 := by omega
        rw [this, List.range'_succ]
      have hstep := ih (k + 1)
        { totalSurfaceArea := Double.add st.totalSurfaceArea
            (Double.fabs (g.vehicleParts.get ⟨k, hlt⟩).getTotalArea),
          calls := st.calls ++ [(k : Int)] } (by omega) (by omega)
      rw [areaLoop]
      simp only [hcond, if_true, hget]
      have hcast : ((k : Int) + 1) = ((k + 1 : Nat) : Int) := by push_cast; rfl
      rw [hcast, hstep, hdrop, hrange]
      simp only [List.map_cons, List.foldl_cons, List.append_assoc, List.singleton_append, addFabs,
        Int.ofNat_eq_coe]
    · have hk2 : k = g.vehicleParts.length := by omega
      have hcond : ¬ (k : Int) < g.getNumberOfVehicleParts := by
        unfold HypersonicLocalInclinationAnalysis.getNumberOfVehicleParts
        omega
      rw [areaLoop]
      simp only [hcond, if_false]
      subst hk2
      simp

theorem getTotalSurfaceAreaTraced_eq (g : HypersonicLocalInclinationAnalysis) :
    getTotalSurfaceAreaTraced g = Outcome.ok
      { totalSurfaceArea := sumFabs g.areas,
        calls := (List.range g.vehicleParts.length).map Int.ofNat } := by
  unfold getTotalSurfaceAreaTraced
  have h := areaLoop_from g (g.getNumberOfVehicleParts.toNat + 1) 0
    { totalSurfaceArea := Double.zero, calls := [] } (Nat.zero_le _)
    (by unfold HypersonicLocalInclinationAnalysis.getNumberOfVehicleParts; simp)
  simp only [Nat.cast_zero] at h
  rw [h]
  simp [sumFabs, HypersonicLocalInclinationAnalysis.areas, List.range_eq_range']

theorem getTotalSurfaceArea_eq (g : HypersonicLocalInclinationAnalysis) :
    getTotalSurfaceArea g = Outcome.ok (sumFabs g.areas) := by
  unfold getTotalSurfaceArea
  rw [getTotalSurfaceAreaTraced_eq]

namespace Double

theorem le_zero_ofExact (n : Nat) : le zero (ofExact false n) = true := by
  unfold ofExact
  split <;> simp [le, zero, signedUnits]

theorem fabs_shape (a : Double) (h : a ≠ nan) : fabs a = inf false ∨ ∃ k, fabs a = fin false k := by
  cases a with
  | nan => exact absurd rfl h
  | inf neg => exact Or.inl rfl
  | fin neg k => exact Or.inr ⟨k, rfl⟩

theorem ofExact_shape (n : Nat) : ofExact false n = inf false ∨ ∃ k, ofExact false n = fin false k := by
  unfold ofExact
  split
  · exact Or.inr ⟨_, rfl⟩
  · exact Or.inl rfl

theorem add_shape (x y : Double) (hx : x = inf false ∨ ∃ k, x = fin false k)
    (hy : y = inf false ∨ ∃ k, y = fin false k) :
    add x y = inf false ∨ ∃ k, add x y = fin false k := by
  rcases hx with hx | ⟨a, hx⟩ <;> rcases hy with hy | ⟨b, hy⟩ <;> subst hx <;> subst hy
  · exact Or.inl rfl
  · exact Or.inl rfl
  · exact Or.inl rfl
  · have : add (fin false a) (fin false b) = ofExact false (a + b) := by simp [add]
    rw [this]
    exact ofExact_shape _

theorem le_zero_of_shape (x : Double) (hx : x = inf false ∨ ∃ k, x = fin false k) :
    le zero x = true := by
  rcases hx with hx | ⟨a, hx⟩ <;> subst hx <;> simp [le, zero, signedUnits]

theorem ofExact_mul_two_pow (M s : Nat) (hM : M ≤ 2 ^ 53) (hs : s ≤ 2044) :
    ofExact false (M * 2 ^ s) = fin false (M * 2 ^ s) := by
  unfold ofExact
  rw [roundNE_mul_two_pow M s hM]
  have h1 : M * 2 ^ s ≤ 2 ^ 53 * 2 ^ s := Nat.mul_le_mul_right _ hM
  have h2 : 2 ^ 53 * 2 ^ s = 2 ^ (53 + s) := by rw [pow_add]
  have h3 : 2 ^ (53 + s) < 2 ^ 2098 := Nat.pow_lt_pow_right (by decide) (by omega)
  have h4 : M * 2 ^ s < overflowThreshold := by
    unfold overflowThreshold
    omega
  simp [h4]

end Double

theorem foldl_addFabs_shape (l : List Double) (h : ∀ a ∈ l, a ≠ Double.nan) :
    ∀ acc : Double, (acc = Double.inf false ∨ ∃ k, acc = Double.fin false k) →
      (l.foldl addFabs acc = Double.inf false ∨ ∃ k, l.foldl addFabs acc = Double.fin false k) := by
  induction l with
  | nil => intro acc hacc; simpa using hacc
  | cons a t ih =>
    intro acc hacc
    simp only [List.foldl_cons]
    apply ih (fun b hb => h b (List.mem_cons_of_mem _ hb))
    exact Double.add_shape _ _ hacc (Double.fabs_shape a (h a (List.mem_cons_self _ _)))

theorem foldl_addFabs_exact (s : Nat) (hs : s ≤ 2044) (l : List Double)
    (hl : ∀ a ∈ l, Double.onGrid s a = true) :
    ∀ x : Nat, 2 ^ s ∣ x → x + (l.map Double.magnitude).sum ≤ 2 ^ (53 + s) →
      l.foldl addFabs (Double.fin false x) = Double.fin false (x + (l.map Double.magnitude).sum) := by
  induction l with
  | nil => intro x _ _; simp
  | cons a t ih =>
    intro x hx hsum
    have ha := hl a (List.mem_cons_self _ _)
    cases a with
    | nan => simp [Double.onGrid] at ha
    | inf neg => simp [Double.onGrid] at ha
    | fin neg y =>
      simp only [Double.onGrid, beq_iff_eq] at ha
      have hy : 2 ^ s ∣ y := Nat.dvd_of_mod_eq_zero ha
      simp only [List.map_cons, List.sum_cons, Double.magnitude] at hsum
      obtain ⟨M, hM⟩ := Dvd.dvd.add hx hy
      have hMle : M ≤ 2 ^ 53 := by
        have h1 : x + y ≤ 2 ^ (53 + s) := by omega
        rw [hM, pow_add, Nat.mul_comm (2 ^ s) M] at h1
        exact Nat.le_of_mul_le_mul_right h1 (Nat.pow_pos (by decide))
      have hstep : addFabs (Double.fin false x) (Double.fin neg y) = Double.fin false (x + y) := by
        simp only [addFabs, Double.fabs, Double.add, if_true]
        rw [hM, Nat.mul_comm (2 ^ s) M]
        exact Double.ofExact_mul_two_pow M s hMle hs
      simp only [List.foldl_cons, hstep, List.map_cons, List.sum_cons, Double.magnitude]
      rw [ih (fun b hb => hl b (List.mem_cons_of_mem _ hb)) (x + y) (Dvd.dvd.add hx hy) (by omega)]
      rw [Nat.add_assoc]

theorem sumFabs_exact (s : Nat) (hs : s ≤ 2044) (l : List Double)
    (hl : ∀ a ∈ l, Double.onGrid s a = true)
    (hsum : (l.map Double.magnitude).sum ≤ 2 ^ (53 + s)) :
    sumFabs l = Double.fin false (l.map Double.magnitude).sum := by
  have h := foldl_addFabs_exact s hs l hl 0 (dvd_zero _) (by simpa using hsum)
  simpa [sumFabs, Double.zero] using h

/-- C1. For an analysis object whose part count is `n` and whose part `i`
reports area `a i` for every `i` in `[0, n)`, `getTotalSurfaceArea` returns
normally and its value is the sum over `i` in `[0, n)` of `|a i|`, the terms
added in index order in `double` arithmetic starting from `0.0`. -/
theorem getTotalSurfaceArea_eq_sum_of_fabs (g : HypersonicLocalInclinationAnalysis) (n : Nat)
    (a : Nat → Double) (hn : g.getNumberOfVehicleParts = (n : Int))
    (ha : ∀ i : Nat, i < n → g.getVehiclePart (i : Int) = some { getTotalArea := a i }) :
    getTotalSurfaceArea g = Outcome.ok (sumFabsUpTo a n) := by
  have hlen : g.vehicleParts.length = n := by
    unfold HypersonicLocalInclinationAnalysis.getNumberOfVehicleParts at hn
    exact_mod_cast hn
  have hareas : g.areas = (List.range n).map a := by
    apply List.ext_getElem
    · simp [HypersonicLocalInclinationAnalysis.areas, hlen]
    · intro i h1 h2
      have hi : i < n := by simpa using h2
      have hget := ha i hi
      unfold HypersonicLocalInclinationAnalysis.getVehiclePart at hget
      have hi2 : i < g.vehicleParts.length := by omega
      simp [List.getElem?_eq_getElem hi2] at hget
      simp [HypersonicLocalInclinationAnalysis.areas, hget]
  rw [getTotalSurfaceArea_eq, sumFabsUpTo, hareas]

/-- Witness of C1 on three parts reporting the areas 1.0, -2.0 and 3.0. -/
theorem getTotalSurfaceArea_eq_sum_of_fabs_witness :
    getTotalSurfaceArea (HypersonicLocalInclinationAnalysis.ofAreas
        [Double.ofNat 1, Double.fin true (2 * 2 ^ 1074), Double.ofNat 3])
      = Outcome.ok (sumFabsUpTo
          (fun i => [Double.ofNat 1, Double.fin true (2 * 2 ^ 1074), Double.ofNat 3].getD i Double.nan) 3)
      ∧ sumFabsUpTo
          (fun i => [Double.ofNat 1, Double.fin true (2 * 2 ^ 1074), Double.ofNat 3].getD i Double.nan) 3
        = Double.ofNat 6 :=
  ⟨getTotalSurfaceArea_eq_sum_of_fabs _ 3 _ (by decide) (by decide), by decide!⟩

/-- C8, counterexample. A part whose reported area is NaN makes `getTotalSurfaceArea`
return NaN, and `0.0 <= NaN` is false. -/
theorem getTotalSurfaceArea_nan_not_nonneg :
    getTotalSurfaceArea (HypersonicLocalInclinationAnalysis.ofAreas
        [Double.fin true (2 * 2 ^ 1074), Double.nan]) = Outcome.ok Double.nan
      ∧ Double.le Double.zero Double.nan = false := by
  decide!

/-- C8, amended. For every sequence of vehicle parts none of whose reported areas
is NaN (negative and infinite areas included), `getTotalSurfaceArea` returns a
value `r` with `0.0 <= r`. -/
theorem getTotalSurfaceArea_nonneg (g : HypersonicLocalInclinationAnalysis)
    (h : ∀ a ∈ g.areas, a ≠ Double.nan) :
    ∃ r, getTotalSurfaceArea g = Outcome.ok r ∧ Double.le Double.zero r = true := by
  refine ⟨sumFabs g.areas, getTotalSurfaceArea_eq g, ?_⟩
  apply Double.le_zero_of_shape
  exact foldl_addFabs_shape g.areas h Double.zero (Or.inr ⟨0, rfl⟩)

/-- Witness of C8 (amended) on parts reporting -2.0, minus infinity and 1.0. -/
theorem getTotalSurfaceArea_nonneg_witness :
    ∃ r, getTotalSurfaceArea (HypersonicLocalInclinationAnalysis.ofAreas
        [Double.fin true (2 * 2 ^ 1074), Double.inf true, Double.ofNat 1]) = Outcome.ok r
      ∧ Double.le Double.zero r = true :=
  getTotalSurfaceArea_nonneg _ (by decide)

/-- C9, counterexample. The areas 2^53, 1.0, 1.0 sum to 2^53 in this order (each
`+ 1.0` is rounded away) and to 2^53 + 2 in the order 1.0, 1.0, 2^53. -/
theorem getTotalSurfaceArea_order_dependent :
    List.Perm [Double.ofNat (2 ^ 53), Double.ofNat 1, Double.ofNat 1]
        [Double.ofNat 1, Double.ofNat 1, Double.ofNat (2 ^ 53)]
      ∧ getTotalSurfaceArea (HypersonicLocalInclinationAnalysis.ofAreas
          [Double.ofNat (2 ^ 53), Double.ofNat 1, Double.ofNat 1]) = Outcome.ok (Double.ofNat (2 ^ 53))
      ∧ getTotalSurfaceArea (HypersonicLocalInclinationAnalysis.ofAreas
          [Double.ofNat 1, Double.ofNat 1, Double.ofNat (2 ^ 53)]) = Outcome.ok (Double.ofNat (2 ^ 53 + 2))
      ∧ Double.ofNat (2 ^ 53) ≠ Double.ofNat (2 ^ 53 + 2) :=
  ⟨(List.perm_append_comm :
      List.Perm ([Double.ofNat (2 ^ 53)] ++ [Double.ofNat 1, Double.ofNat 1]) _),
    by decide!, by decide!, by decide!⟩

/-- C9, amended. When every reported area is a finite integer multiple of one
power of two `2^(s-1074)` and the absolute values sum to at most `2^53` such
multiples (so that no addition rounds; for `s = 1074`: integer areas whose
absolute values sum to at most `2^53`), `getTotalSurfaceArea` returns the same
value for the part list and for every permutation of it. -/
theorem getTotalSurfaceArea_perm (s : Nat) (g1 g2 : HypersonicLocalInclinationAnalysis)
    (hperm : List.Perm g1.vehicleParts g2.vehicleParts) (hs : s ≤ 2044)
    (hgrid : ∀ a ∈ g1.areas, Double.onGrid s a = true)
    (hsum : (g1.areas.map Double.magnitude).sum ≤ 2 ^ (53 + s)) :
    getTotalSurfaceArea g1 = getTotalSurfaceArea g2 := by
  have hp : List.Perm g1.areas g2.areas := List.Perm.map _ hperm
  have hp2 : List.Perm (g1.areas.map Double.magnitude) (g2.areas.map Double.magnitude) :=
    List.Perm.map _ hp
  have hsumeq : (g1.areas.map Double.magnitude).sum = (g2.areas.map Double.magnitude).sum :=
    List.Perm.sum_eq hp2
  have hgrid2 : ∀ a ∈ g2.areas, Double.onGrid s a = true :=
    fun a ha => hgrid a ((List.Perm.mem_iff hp).2 ha)
  rw [getTotalSurfaceArea_eq, getTotalSurfaceArea_eq, sumFabs_exact s hs g1.areas hgrid hsum,
    sumFabs_exact s hs g2.areas hgrid2 (hsumeq ▸ hsum), hsumeq]

/-- Witness of C9 (amended) on the areas 1.0, -2.0, 3.0 and their rotation. -/
theorem getTotalSurfaceArea_perm_witness :
    getTotalSurfaceArea (HypersonicLocalInclinationAnalysis.ofAreas
        [Double.ofNat 1, Double.fin true (2 * 2 ^ 1074), Double.ofNat 3])
      = getTotalSurfaceArea (HypersonicLocalInclinationAnalysis.ofAreas
        [Double.fin true (2 * 2 ^ 1074), Double.ofNat 3, Double.ofNat 1]) :=
  getTotalSurfaceArea_perm 1074 _ _
    (List.perm_append_comm : List.Perm ([LawgsPartGeometry.mk (Double.ofNat 1)] ++ _) _) (by decide)
    (by decide!) (by decide!)

/-- C10. For an object with zero vehicle parts, `getTotalSurfaceArea` returns `0.0`
and makes no call to `getVehiclePart`. -/
theorem getTotalSurfaceArea_no_parts (g : HypersonicLocalInclinationAnalysis)
    (h : g.getNumberOfVehicleParts = 0) :
    getTotalSurfaceArea g = Outcome.ok Double.zero
      ∧ getTotalSurfaceAreaTraced g = Outcome.ok { totalSurfaceArea := Double.zero, calls := [] } := by
  have hlen : g.vehicleParts = [] := by
    unfold HypersonicLocalInclinationAnalysis.getNumberOfVehicleParts at h
    have : g.vehicleParts.length = 0 := by exact_mod_cast h
    exact List.length_eq_zero.1 this
  rw [getTotalSurfaceArea_eq, getTotalSurfaceAreaTraced_eq]
  simp [HypersonicLocalInclinationAnalysis.areas, hlen, sumFabs]

/-- Witness of C10 on the object with an empty part list. -/
theorem getTotalSurfaceArea_no_parts_witness :
    getTotalSurfaceArea (HypersonicLocalInclinationAnalysis.ofAreas []) = Outcome.ok Double.zero
      ∧ getTotalSurfaceAreaTraced (HypersonicLocalInclinationAnalysis.ofAreas [])
        = Outcome.ok { totalSurfaceArea := Double.zero, calls := [] } :=
  getTotalSurfaceArea_no_parts _ (by decide)

/-! ### The loops of `getVehicleMesh` -/

theorem pushAll_nil (st : MeshState) : st.pushAll [] = st := rfl

theorem pushAll_append (st : MeshState) (a b : List (Vector3d × Vector3d)) :
    (st.pushAll a).pushAll b = st.pushAll (a ++ b) := by
  simp [MeshState.pushAll, List.foldl_append]

theorem pushAll_cons (st : MeshState) (c : Vector3d × Vector3d) (cs : List (Vector3d × Vector3d)) :
    (st.push c).pushAll cs = st.pushAll (c :: cs) := rfl

theorem pushAll_fields (cs : List (Vector3d × Vector3d)) : ∀ st : MeshState,
    st.pushAll cs =
      { counter := st.counter + (cs.length : Int),
        meshPointsList := st.meshPointsList ++ cs.map Prod.fst,
        surfaceNormalsList := st.surfaceNormalsList ++ cs.map Prod.snd } := by
  induction cs with
  | nil => intro st; simp [MeshState.pushAll]
  | cons c t ih =>
    intro st
    rw [← pushAll_cons, ih]
    simp [MeshState.push, Int.add_assoc, Int.add_comm 1]

theorem sizeMinusOne_of_pos (n : Nat) (h1 : 1 ≤ n) (h2 : n ≤ uintModulus) :
    sizeMinusOne n = n - 1 := by
  unfold sizeMinusOne sizeModulus
  unfold uintModulus at h2
  omega

theorem uintSucc_of_lt (j b : Nat) (h : j < b) (hb : b < uintModulus) : uintSucc j = j + 1 := by
  unfold uintSucc
  apply Nat.mod_eq_of_lt
  omega

/-- The inner loop, when its bound fits the counter and every cell from `k` on
can be read, appends those cells in column order. -/
theorem meshLoopK_ok (pts : MultiArray Vector3d) (nrm : Option (MultiArray Vector3d)) (j : Nat)
    (f : Nat → Vector3d × Vector3d) (hb : sizeMinusOne pts.shape1 < uintModulus) :
    ∀ (fuel k : Nat) (st : MeshState), k ≤ sizeMinusOne pts.shape1 →
      sizeMinusOne pts.shape1 - k < fuel →
      (∀ k1, k ≤ k1 → k1 < sizeMinusOne pts.shape1 → readCell pts nrm j k1 = some (f k1)) →
      meshLoopK pts nrm j fuel k st
        = Outcome.ok (st.pushAll ((List.range' k (sizeMinusOne pts.shape1 - k)).map f)) := by
  intro fuel
  induction fuel with
  | zero => intro k st _ h; omega
  | succ n ih =>
    intro k st hk hfuel hread
    by_cases hlt : k < sizeMinusOne pts.shape1
    · have hsucc := uintSucc_of_lt k _ hlt hb
      have hrange : List.range' k (sizeMinusOne pts.shape1 - k)
          = k :: List.range' (k + 1) (sizeMinusOne pts.shape1 - (k + 1)) := by
        have : sizeMinusOne pts.shape1 - k = (sizeMinusOne pts.shape1 - (k + 1)) + 1 := by omega
        rw [this, List.range'_succ]
      rw [meshLoopK]
      simp only [hlt, if_true, hread k (Nat.le_refl k) hlt, hsucc]
      rw [ih (k + 1) (st.push (f k)) (by omega) (by omega)
        (fun k1 h1 h2 => hread k1 (by omega) h2), hrange]
      rfl
    · have hk2 : sizeMinusOne pts.shape1 - k = 0 := by omega
      rw [meshLoopK]
      simp [hlt, hk2, pushAll_nil]

/-- The middle loop, when both bounds fit the counters and every cell of the rows
from `j` on can be read, appends those rows in order. -/
theorem meshLoopJ_ok (pts : MultiArray Vector3d) (nrm : Option (MultiArray Vector3d))
    (f : Nat → Nat → Vector3d × Vector3d) (inner : Nat)
    (hb0 : sizeMinusOne pts.shape0 < uintModulus) (hb1 : sizeMinusOne pts.shape1 < uintModulus)
    (hinner : sizeMinusOne pts.shape1 < inner) :
    ∀ (fuel j : Nat) (st : MeshState), j ≤ sizeMinusOne pts.shape0 →
      sizeMinusOne pts.shape0 - j < fuel →
      (∀ j1 k1, j ≤ j1 → j1 < sizeMinusOne pts.shape0 → k1 < sizeMinusOne pts.shape1 →
        readCell pts nrm j1 k1 = some (f j1 k1)) →
      meshLoopJ pts nrm inner fuel j st
        = Outcome.ok (st.pushAll ((List.range' j (sizeMinusOne pts.shape0 - j)).flatMap
            fun j1 => (List.range (sizeMinusOne pts.shape1)).map (f j1))) := by
  intro fuel
  induction fuel with
  | zero => intro j st _ h; omega
  | succ n ih =>
    intro j st hj hfuel hread
    by_cases hlt : j < sizeMinusOne pts.shape0
    · have hsucc := uintSucc_of_lt j _ hlt hb0
      have hrange : List.range' j (sizeMinusOne pts.shape0 - j)
          = j :: List.range' (j + 1) (sizeMinusOne pts.shape0 - (j + 1)) := by
        have : sizeMinusOne pts.shape0 - j = (sizeMinusOne pts.shape0 - (j + 1)) + 1 := by omega
        rw [this, List.range'_succ]
      have hrow := meshLoopK_ok pts nrm j (f j) hb1 inner 0 st (Nat.zero_le _) (by omega)
        (fun k1 _ h2 => hread j k1 (Nat.le_refl j) hlt h2)
      rw [meshLoopJ]
      simp only [hlt, if_true, hrow, hsucc]
      rw [ih (j + 1) _ (by omega) (by omega) (fun j1 k1 h1 h2 h3 => hread j1 k1 (by omega) h2 h3),
        pushAll_append, hrange]
      simp [List.range_eq_range']
    · have hj2 : sizeMinusOne pts.shape0 - j = 0 := by omega
      rw [meshLoopJ]
      simp [hlt, hj2, pushAll_nil]

/-- The outer loop, when the number of grids fits the counter and the loops over
each grid from `i` on return having appended `G i`, appends these in part order. -/
theorem meshLoopI_ok (meshPoints meshSurfaceNormals : List (MultiArray Vector3d)) (inner : Nat)
    (G : Nat → List (Vector3d × Vector3d)) (hn : meshPoints.length < uintModulus) :
    ∀ (fuel i : Nat) (st : MeshState), i ≤ meshPoints.length → meshPoints.length - i < fuel →
      (∀ i1 a, i ≤ i1 → meshPoints.get? i1 = some a → ∀ st1 : MeshState,
        meshLoopJ a (meshSurfaceNormals.get? i1) inner inner 0 st1 = Outcome.ok (st1.pushAll (G i1))) →
      meshLoopI meshPoints meshSurfaceNormals inner fuel i st
        = Outcome.ok (st.pushAll ((List.range' i (meshPoints.length - i)).flatMap G)) := by
  intro fuel
  induction fuel with
  | zero => intro i st _ h; omega
  | succ n ih =>
    intro i st hi hfuel hgrid
    by_cases hlt : i < meshPoints.length
    · have hsucc := uintSucc_of_lt i _ hlt hn
      have hrange : List.range' i (meshPoints.length - i)
          = i :: List.range' (i + 1) (meshPoints.length - (i + 1)) := by
        have : meshPoints.length - i = (meshPoints.length - (i + 1)) + 1 := by omega
        rw [this, List.range'_succ]
      have hget : meshPoints.get? i = some (meshPoints.get ⟨i, hlt⟩) := List.get?_eq_get hlt
      rw [meshLoopI]
      simp only [hlt, if_true, hget, hgrid i _ (Nat.le_refl i) hget st, hsucc]
      rw [ih (i + 1) _ (by omega) (by omega) (fun i1 a h1 h2 => hgrid i1 a (by omega) h2),
        pushAll_append, hrange]
      simp
    · have hi2 : meshPoints.length - i = 0 := by omega
      rw [meshLoopI]
      simp [hlt, hi2, pushAll_nil]

/-- The pairs read off a point grid and a normal grid at the interior cells of the
point grid, in row-major order. -/
theorem gridPairs_fst (a b : MultiArray Vector3d) :
    (gridPairs a b).map Prod.fst = flattenGrid a := by
  simp [gridPairs, flattenGrid, List.map_map, Function.comp_def]

theorem gridPairs_snd (a b : MultiArray Vector3d) (h : a.shape = b.shape) :
    (gridPairs a b).map Prod.snd = flattenGrid b := by
  simp [gridPairs, flattenGrid, List.map_map, Function.comp_def, h]

/-- The loops over one grid with at least one row and one column and extents
within the counters, whose interior cells the normal grid covers, return having
appended the pairs of the interior cells. -/
theorem meshLoopJ_grid (a b : MultiArray Vector3d) (inner : Nat) (hinner : uintModulus ≤ inner)
    (hr : 1 ≤ a.shape0) (hr2 : a.shape0 ≤ uintModulus)
    (hc : 1 ≤ a.shape1) (hc2 : a.shape1 ≤ uintModulus)
    (hcov : 2 ≤ a.shape0 → 2 ≤ a.shape1 → a.shape0 - 1 ≤ b.shape0 ∧ a.shape1 - 1 ≤ b.shape1)
    (st : MeshState) :
    meshLoopJ a (some b) inner inner 0 st = Outcome.ok (st.pushAll (gridPairs a b)) := by
  have h0 := sizeMinusOne_of_pos a.shape0 hr hr2
  have h1 := sizeMinusOne_of_pos a.shape1 hc hc2
  have hb0 : sizeMinusOne a.shape0 < uintModulus := by omega
  have hb1 : sizeMinusOne a.shape1 < uintModulus := by omega
  have h := meshLoopJ_ok a (some b) (fun j k => (a.elems j k, b.elems j k)) inner hb0 hb1
    (by omega) inner 0 st (Nat.zero_le _) (by omega)
    (by
      intro j1 k1 _ hj hk
      rw [h0] at hj
      rw [h1] at hk
      have hcov2 := hcov (by omega) (by omega)
      have ha : j1 < a.shape0 ∧ k1 < a.shape1 := ⟨by omega, by omega⟩
      have hb : j1 < b.shape0 ∧ k1 < b.shape1 := ⟨by omega, by omega⟩
      simp [readCell, MultiArray.at2, ha, hb])
  have hcells : ((List.range' 0 (a.shape0 - 1)).flatMap fun j1 =>
      (List.range (a.shape1 - 1)).map fun k => (a.elems j1 k, b.elems j1 k)) = gridPairs a b := by
    simp [gridPairs, interiorCells, MultiArray.shape, List.map_flatMap, List.map_map, Function.comp_def,
      List.range_eq_range']
  rw [h, h0, h1, Nat.sub_zero, hcells]

theorem flatMap_range_get? {α β : Type} (H : α → List β) :
    ∀ (l : List α) (h : Nat → List β), (∀ i a, l.get? i = some a → h i = H a) →
      (List.range l.length).flatMap h = l.flatMap H := by
  intro l
  induction l with
  | nil => intro h _; simp
  | cons x t ih =>
    intro h hh
    rw [List.length_cons, List.range_succ_eq_map, List.flatMap_cons, List.flatMap_map,
      List.flatMap_cons, hh 0 x rfl, ih (fun i => h (i + 1)) (fun i a hi => hh (i + 1) a hi)]

theorem matching_get? {ps ns : List (MultiArray Vector3d)} (h : MatchingShapes ps ns) (i : Nat)
    (a : MultiArray Vector3d) (ha : ps.get? i = some a) :
    ∃ b, ns.get? i = some b ∧ a.shape = b.shape := by
  have h1 : (ps.map MultiArray.shape).get? i = (ns.map MultiArray.shape).get? i := by
    rw [show ps.map MultiArray.shape = ns.map MultiArray.shape from h]
  rw [List.get?_eq_getElem?, List.get?_eq_getElem?, List.getElem?_map, List.getElem?_map,
    ← List.get?_eq_getElem?, ← List.get?_eq_getElem?, ha] at h1
  cases hb : ns.get? i with
  | none => rw [hb] at h1; simp at h1
  | some b =>
    rw [hb] at h1
    simp only [Option.map_some', Option.some.injEq] at h1
    exact ⟨b, rfl, h1⟩

theorem matching_symm {ps ns : List (MultiArray Vector3d)} (h : MatchingShapes ps ns) :
    MatchingShapes ns ps := Eq.symm h

theorem matching_length {ps ns : List (MultiArray Vector3d)} (h : MatchingShapes ps ns) :
    ps.length = ns.length := by
  have := congrArg List.length h
  simpa using this

theorem partPairs_eq {ps ns : List (MultiArray Vector3d)} {i : Nat} {a b : MultiArray Vector3d}
    (ha : ps.get? i = some a) (hb : ns.get? i = some b) : partPairs ps ns i = gridPairs a b := by
  unfold partPairs
  rw [ha, hb]

/-- For matched grids with at least one row and one column and sizes within the
loop counters, `getVehicleMesh` returns the grid-by-grid flattening of the point
grids and of the normal grids. -/
theorem getVehicleMesh_eq_flatten (fuel : Nat) (g : HypersonicLocalInclinationAnalysis)
    (hm : MatchingShapes g.getMeshPoints g.getPanelSurfaceNormals)
    (hne : NonEmptyGrids g.getMeshPoints) (hfit : FitsCounters g.getMeshPoints)
    (hfuel : uintModulus ≤ fuel) :
    getVehicleMesh fuel g = Outcome.ok
      (g.getMeshPoints.flatMap flattenGrid, g.getPanelSurfaceNormals.flatMap flattenGrid) := by
  have hloop := meshLoopI_ok g.getMeshPoints g.getPanelSurfaceNormals fuel
    (partPairs g.getMeshPoints g.getPanelSurfaceNormals) hfit.1 fuel 0
    { counter := 0, meshPointsList := [], surfaceNormalsList := [] } (Nat.zero_le _)
    (by have := hfit.1; omega)
    (by
      intro i1 a _ ha st1
      obtain ⟨b, hb, hshape⟩ := matching_get? hm i1 a ha
      have hmem : a ∈ g.getMeshPoints := List.get?_mem ha
      have hs0 : a.shape0 = b.shape0 := congrArg Prod.fst hshape
      have hs1 : a.shape1 = b.shape1 := congrArg Prod.snd hshape
      rw [hb, meshLoopJ_grid a b fuel hfuel (hne a hmem).1 (hfit.2 a hmem).1 (hne a hmem).2
        (hfit.2 a hmem).2 (fun _ _ => ⟨by omega, by omega⟩) st1]
      rw [partPairs_eq ha hb])
  unfold getVehicleMesh
  rw [hloop, pushAll_fields]
  simp only [List.nil_append, Nat.sub_zero, ← List.range_eq_range', List.map_flatMap]
  have hP : ((List.range g.getMeshPoints.length).flatMap fun i =>
      (partPairs g.getMeshPoints g.getPanelSurfaceNormals i).map Prod.fst)
      = g.getMeshPoints.flatMap flattenGrid := by
    apply flatMap_range_get?
    intro i a ha
    obtain ⟨b, hb, _⟩ := matching_get? hm i a ha
    rw [partPairs_eq ha hb, gridPairs_fst]
  have hN : ((List.range g.getMeshPoints.length).flatMap fun i =>
      (partPairs g.getMeshPoints g.getPanelSurfaceNormals i).map Prod.snd)
      = g.getPanelSurfaceNormals.flatMap flattenGrid := by
    rw [matching_length hm]
    apply flatMap_range_get?
    intro i b hb
    obtain ⟨a, ha, hshape⟩ := matching_get? (matching_symm hm) i b hb
    rw [partPairs_eq ha hb, gridPairs_snd a b hshape.symm]
  rw [hP, hN]

theorem mem_interiorCells (sh : Nat × Nat) (jk : Nat × Nat) :
    jk ∈ interiorCells sh ↔ jk.1 < sh.1 - 1 ∧ jk.2 < sh.2 - 1 := by
  obtain ⟨j, k⟩ := jk
  simp only [interiorCells, List.mem_flatMap, List.mem_map, List.mem_range, Prod.mk.injEq]
  constructor
  · rintro ⟨j1, hj, k1, hk, rfl, rfl⟩
    exact ⟨hj, hk⟩
  · rintro ⟨hj, hk⟩
    exact ⟨j, hj, k, hk, rfl, rfl⟩

theorem length_interiorCells (sh : Nat × Nat) :
    (interiorCells sh).length = (sh.1 - 1) * (sh.2 - 1) := by
  have h : ∀ n : Nat, ((List.range n).flatMap fun j =>
      (List.range (sh.2 - 1)).map fun k => (j, k)).length = n * (sh.2 - 1) := by
    intro n
    induction n with
    | zero => simp
    | succ m ih => rw [List.range_succ, List.flatMap_append, List.length_append, ih]; simp [Nat.succ_mul]
  exact h (sh.1 - 1)

theorem length_flattenGrid (a : MultiArray Vector3d) :
    (flattenGrid a).length = (a.shape0 - 1) * (a.shape1 - 1) := by
  simp [flattenGrid, length_interiorCells, MultiArray.shape]

theorem length_flatMap_flattenGrid (gs : List (MultiArray Vector3d)) :
    (gs.flatMap flattenGrid).length = (gs.map fun a => (a.shape0 - 1) * (a.shape1 - 1)).sum := by
  induction gs with
  | nil => simp
  | cons x t ih => simp [List.flatMap_cons, length_flattenGrid, ih]

/-- Reading the grids at the index sequence of the flattening gives the
grid-by-grid flattening, every subscript being in range. -/
theorem map_elemAt_enumFrom (gs : List (MultiArray Vector3d)) :
    ∀ (pre : List (MultiArray Vector3d)),
      (((gs.map MultiArray.shape).enumFrom pre.length).flatMap fun ig =>
          (interiorCells ig.2).map fun jk => (ig.1, jk.1, jk.2)).map (elemAt (pre ++ gs))
        = (gs.flatMap flattenGrid).map some := by
  induction gs with
  | nil => intro pre; simp
  | cons x t ih =>
    intro pre
    have hrest := ih (pre ++ [x])
    simp only [List.length_append, List.length_singleton, List.append_assoc,
      List.singleton_append] at hrest
    simp only [List.map_cons, List.enumFrom_cons, List.flatMap_cons, List.map_append, hrest]
    congr 1
    simp only [flattenGrid, List.map_map]
    apply List.map_congr_left
    intro jk hjk
    have hmem := (mem_interiorCells _ _).1 hjk
    simp only [MultiArray.shape] at hmem
    have hin : jk.1 < x.shape0 ∧ jk.2 < x.shape1 := ⟨by omega, by omega⟩
    have hget : (pre ++ x :: t).get? pre.length = some x := by
      rw [List.get?_eq_getElem?, List.getElem?_append_right (Nat.le_refl _)]
      simp
    simp only [Function.comp_def, elemAt, hget, MultiArray.at2, hin, and_self, if_true]

theorem map_elemAt_meshCells (gs : List (MultiArray Vector3d)) :
    (meshCells (gs.map MultiArray.shape)).map (elemAt gs) = (gs.flatMap flattenGrid).map some := by
  have h := map_elemAt_enumFrom gs []
  simpa [meshCells, List.enum] using h

theorem uintSucc_lt (j : Nat) : uintSucc j < uintModulus := by
  unfold uintSucc
  exact Nat.mod_lt _ (by decide)

/-- The middle loop never returns on a grid of one column whose row bound is beyond
the range of the `unsigned int` counter. -/
theorem meshLoopJ_timeout (a : MultiArray Vector3d) (nrm : Option (MultiArray Vector3d))
    (inner : Nat) (h0 : uintModulus ≤ sizeMinusOne a.shape0) (h1 : sizeMinusOne a.shape1 = 0) :
    ∀ (fuel j : Nat) (st : MeshState), j < uintModulus →
      meshLoopJ a nrm inner fuel j st = Outcome.timeout := by
  intro fuel
  induction fuel with
  | zero => intro j st _; rfl
  | succ n ih =>
    intro j st hj
    have hlt : j < sizeMinusOne a.shape0 := by omega
    rw [meshLoopJ]
    simp only [hlt, if_true]
    cases inner with
    | zero => rfl
    | succ m =>
      have hk : meshLoopK a nrm j (m + 1) 0 st = Outcome.ok st := by
        rw [meshLoopK]
        simp [h1]
      rw [hk]
      exact ih (uintSucc j) st (uintSucc_lt j)

/-- The outer loop never returns when its first grid has one column and a row
bound beyond the range of the `unsigned int` counter. -/
theorem meshLoopI_timeout (a : MultiArray Vector3d) (ps ns : List (MultiArray Vector3d))
    (inner fuel : Nat) (st : MeshState)
    (h0 : uintModulus ≤ sizeMinusOne a.shape0) (h1 : sizeMinusOne a.shape1 = 0) :
    meshLoopI (a :: ps) ns inner fuel 0 st = Outcome.timeout := by
  have hpos : 0 < uintModulus := Nat.lt_of_le_of_lt (Nat.zero_le _) (uintSucc_lt 0)
  cases fuel with
  | zero => rfl
  | succ n =>
    have hlen : 0 < (a :: ps).length := Nat.zero_lt_succ _
    rw [meshLoopI, if_pos hlen]
    show (match meshLoopJ a (ns.get? 0) inner inner 0 st with
      | Outcome.ok st1 => meshLoopI (a :: ps) ns inner n (uintSucc 0) st1
      | Outcome.fault => Outcome.fault
      | Outcome.timeout => Outcome.timeout) = Outcome.timeout
    rw [meshLoopJ_timeout a _ inner h0 h1 inner 0 st hpos]

/-- With a first point grid of one column and more than `2^32` rows,
`getVehicleMesh` returns for no amount of fuel. -/
theorem getVehicleMesh_timeout (fuel : Nat) (a : MultiArray Vector3d)
    (ps ns : List (MultiArray Vector3d))
    (h0 : uintModulus ≤ sizeMinusOne a.shape0) (h1 : sizeMinusOne a.shape1 = 0) :
    getVehicleMesh fuel (HypersonicLocalInclinationAnalysis.ofMesh (a :: ps) ns) = Outcome.timeout := by
  show (match meshLoopI (a :: ps) ns fuel fuel 0
      { counter := 0, meshPointsList := [], surfaceNormalsList := [] } with
    | Outcome.ok st => Outcome.ok (st.meshPointsList, st.surfaceNormalsList)
    | Outcome.fault => Outcome.fault
    | Outcome.timeout => Outcome.timeout) = Outcome.timeout
  rw [meshLoopI_timeout a ps ns fuel fuel _ h0 h1]

theorem tallMesh_timeout (fuel : Nat) : getVehicleMesh fuel tallMesh = Outcome.timeout :=
  getVehicleMesh_timeout fuel _ _ _ (by decide) (by decide)

theorem tallMesh_never_ok : ¬ ∃ fuel out, getVehicleMesh fuel tallMesh = Outcome.ok out := by
  rintro ⟨fuel, out, h⟩
  rw [tallMesh_timeout] at h
  exact Outcome.noConfusion h

/-- On a grid of shape `0 x 0` both loop bounds are `2^64 - 1` and the first loop
body reads element `[0][0]`, which is a fault, whatever the fuel. -/
theorem emptyGridMesh_fault (fuel : Nat) :
    getVehicleMesh (fuel + 1) emptyGridMesh = Outcome.fault := by
  unfold getVehicleMesh emptyGridMesh HypersonicLocalInclinationAnalysis.ofMesh
  rw [meshLoopI]
  have h0 : (0 : Nat) < sizeMinusOne (zeroGrid 0 0).shape0 := by decide
  have h1 : (0 : Nat) < sizeMinusOne (zeroGrid 0 0).shape1 := by decide
  have hJ : ∀ st, meshLoopJ (zeroGrid 0 0) (some (zeroGrid 0 0)) (fuel + 1) (fuel + 1) 0 st
      = Outcome.fault := by
    intro st
    rw [meshLoopJ]
    simp only [h0, if_true]
    rw [meshLoopK]
    simp only [h1, if_true]
    rfl
  simp [hJ]

theorem emptyGridMesh_never_ok :
    ¬ ∃ fuel out, getVehicleMesh fuel emptyGridMesh = Outcome.ok out := by
  rintro ⟨fuel, out, h⟩
  cases fuel with
  | zero => exact Outcome.noConfusion h
  | succ n =>
    rw [emptyGridMesh_fault] at h
    exact Outcome.noConfusion h

/-- The two lists of a loop state have the same length. -/
theorem push_lockstep (st : MeshState) (c : Vector3d × Vector3d)
    (h : st.meshPointsList.length = st.surfaceNormalsList.length) :
    (st.push c).meshPointsList.length = (st.push c).surfaceNormalsList.length := by
  simp [MeshState.push, h]

theorem meshLoopK_lockstep (pts : MultiArray Vector3d) (nrm : Option (MultiArray Vector3d)) (j : Nat) :
    ∀ (fuel k : Nat) (st st1 : MeshState), meshLoopK pts nrm j fuel k st = Outcome.ok st1 →
      st.meshPointsList.length = st.surfaceNormalsList.length →
      st1.meshPointsList.length = st1.surfaceNormalsList.length := by
  intro fuel
  induction fuel with
  | zero => intro k st st1 h _; exact Outcome.noConfusion h
  | succ n ih =>
    intro k st st1 h hst
    rw [meshLoopK] at h
    split at h
    · cases hc : readCell pts nrm j k with
      | none => rw [hc] at h; exact Outcome.noConfusion h
      | some c =>
        rw [hc] at h
        exact ih _ _ _ h (push_lockstep st c hst)
    · cases h
      exact hst

theorem meshLoopJ_lockstep (pts : MultiArray Vector3d) (nrm : Option (MultiArray Vector3d))
    (inner : Nat) :
    ∀ (fuel j : Nat) (st st1 : MeshState), meshLoopJ pts nrm inner fuel j st = Outcome.ok st1 →
      st.meshPointsList.length = st.surfaceNormalsList.length →
      st1.meshPointsList.length = st1.surfaceNormalsList.length := by
  intro fuel
  induction fuel with
  | zero => intro j st st1 h _; exact Outcome.noConfusion h
  | succ n ih =>
    intro j st st1 h hst
    rw [meshLoopJ] at h
    split at h
    · cases hk : meshLoopK pts nrm j inner 0 st with
      | ok st2 =>
        rw [hk] at h
        exact ih _ _ _ h (meshLoopK_lockstep pts nrm j inner 0 st st2 hk hst)
      | fault => rw [hk] at h; exact Outcome.noConfusion h
      | timeout => rw [hk] at h; exact Outcome.noConfusion h
    · cases h
      exact hst

theorem meshLoopI_lockstep (ps ns : List (MultiArray Vector3d)) (inner : Nat) :
    ∀ (fuel i : Nat) (st st1 : MeshState), meshLoopI ps ns inner fuel i st = Outcome.ok st1 →
      st.meshPointsList.length = st.surfaceNormalsList.length →
      st1.meshPointsList.length = st1.surfaceNormalsList.length := by
  intro fuel
  induction fuel with
  | zero => intro i st st1 h _; exact Outcome.noConfusion h
  | succ n ih =>
    intro i st st1 h hst
    rw [meshLoopI] at h
    split at h
    · cases hp : ps.get? i with
      | none => rw [hp] at h; exact Outcome.noConfusion h
      | some a =>
        rw [hp] at h
        simp only at h
        cases hj : meshLoopJ a (ns.get? i) inner inner 0 st with
        | ok st2 =>
          rw [hj] at h
          exact ih _ _ _ h (meshLoopJ_lockstep a _ inner inner 0 st st2 hj hst)
        | fault => rw [hj] at h; exact Outcome.noConfusion h
        | timeout => rw [hj] at h; exact Outcome.noConfusion h
    · cases h
      exact hst

/-- Whatever the input, a pair returned by `getVehicleMesh` holds two lists of one length. -/
theorem getVehicleMesh_lockstep (fuel : Nat) (g : HypersonicLocalInclinationAnalysis)
    (P N : List Vector3d) (h : getVehicleMesh fuel g = Outcome.ok (P, N)) : P.length = N.length := by
  unfold getVehicleMesh at h
  cases hI : meshLoopI g.getMeshPoints g.getPanelSurfaceNormals fuel fuel 0
      { counter := 0, meshPointsList := [], surfaceNormalsList := [] } with
  | ok st =>
    rw [hI] at h
    have hst := meshLoopI_lockstep _ _ _ _ _ _ _ hI rfl
    simp only [Outcome.ok.injEq, Prod.mk.injEq] at h
    rw [← h.1, ← h.2]
    exact hst
  | fault => rw [hI] at h; exact Outcome.noConfusion h
  | timeout => rw [hI] at h; exact Outcome.noConfusion h

/-- C2, counterexample. One patch of `2^32 + 1` rows and one column, with a normal
grid of the same shape: the shapes match and every grid has a row and a column,
yet the `unsigned int` row counter wraps to 0 before it reaches the bound `2^32`,
so `getVehicleMesh` returns no pair at all. -/
theorem getVehicleMesh_tall_returns_no_pair :
    MatchingShapes tallMesh.getMeshPoints tallMesh.getPanelSurfaceNormals
      ∧ NonEmptyGrids tallMesh.getMeshPoints
      ∧ ¬ ∃ fuel P N, getVehicleMesh fuel tallMesh = Outcome.ok (P, N) := by
  refine ⟨by decide, by decide, ?_⟩
  rintro ⟨fuel, P, N, h⟩
  exact tallMesh_never_ok ⟨fuel, (P, N), h⟩

/-- C2, amended. For every input whose point grids and normal grids have matching
shapes, whose grids each have at least one row and one column, and which has
fewer than `2^32` grids of at most `2^32` rows and `2^32` columns each,
`getVehicleMesh` returns a pair `(P, N)`; `P` is `meshPoints[i][j][k]` and `N` is
`meshSurfaceNormals[i][j][k]` taken over one and the same index sequence: parts
`i` in increasing order, then rows `j = 0..R_i-2`, then columns `k = 0..C_i-2`.
Every subscript is in range. -/
theorem getVehicleMesh_index_sequence (fuel : Nat) (g : HypersonicLocalInclinationAnalysis)
    (hm : MatchingShapes g.getMeshPoints g.getPanelSurfaceNormals)
    (hne : NonEmptyGrids g.getMeshPoints) (hfit : FitsCounters g.getMeshPoints)
    (hfuel : uintModulus ≤ fuel) :
    ∃ P N, getVehicleMesh fuel g = Outcome.ok (P, N)
      ∧ P.map some = (meshCells (g.getMeshPoints.map MultiArray.shape)).map (elemAt g.getMeshPoints)
      ∧ N.map some = (meshCells (g.getMeshPoints.map MultiArray.shape)).map
          (elemAt g.getPanelSurfaceNormals) := by
  refine ⟨_, _, getVehicleMesh_eq_flatten fuel g hm hne hfit hfuel, ?_, ?_⟩
  · exact (map_elemAt_meshCells _).symm
  · rw [show g.getMeshPoints.map MultiArray.shape = g.getPanelSurfaceNormals.map MultiArray.shape
      from hm]
    exact (map_elemAt_meshCells _).symm

/-- Witness of C2 (amended) on patches of shapes `3 x 3` and `2 x 2`. -/
theorem getVehicleMesh_index_sequence_witness :
    ∃ P N, getVehicleMesh uintModulus twoPatchMesh = Outcome.ok (P, N)
      ∧ P.map some = (meshCells (twoPatchMesh.getMeshPoints.map MultiArray.shape)).map
          (elemAt twoPatchMesh.getMeshPoints)
      ∧ N.map some = (meshCells (twoPatchMesh.getMeshPoints.map MultiArray.shape)).map
          (elemAt twoPatchMesh.getPanelSurfaceNormals) :=
  getVehicleMesh_index_sequence uintModulus twoPatchMesh (by decide) (by decide) (by decide)
    (Nat.le_refl _)

theorem flatMap_const_nil {α β : Type} (l : List α) : (l.flatMap fun _ => ([] : List β)) = [] := by
  induction l with
  | nil => rfl
  | cons x t ih => rw [List.flatMap_cons, ih]; rfl

/-- The loops over a grid with one row, or with one column and at most `2^32`
rows, return without a read and leave the state as it was. -/
theorem meshLoopJ_no_cells (a : MultiArray Vector3d) (nrm : Option (MultiArray Vector3d))
    (inner : Nat) (hinner : uintModulus ≤ inner)
    (h : a.shape0 = 1 ∨ (1 ≤ a.shape0 ∧ a.shape0 ≤ uintModulus ∧ a.shape1 = 1)) (st : MeshState) :
    meshLoopJ a nrm inner inner 0 st = Outcome.ok st := by
  have hpos : 0 < uintModulus := by decide
  rcases h with h | ⟨hr, hr2, hc⟩
  · obtain ⟨n, hn⟩ : ∃ n, inner = n + 1 := ⟨inner - 1, by omega⟩
    have hb : ¬ (0 < sizeMinusOne a.shape0) := by rw [h]; decide
    rw [hn, meshLoopJ]
    simp only [hb, if_false]
  · have h0 := sizeMinusOne_of_pos a.shape0 hr hr2
    have h1 : sizeMinusOne a.shape1 = 0 := by rw [hc]; decide
    have hloop := meshLoopJ_ok a nrm
      (fun _ _ => ((zeroGrid 0 0).elems 0 0, (zeroGrid 0 0).elems 0 0)) inner
      (by omega) (by omega) (by omega) inner 0 st (Nat.zero_le _) (by omega)
      (by intro j1 k1 _ _ hk; omega)
    rw [hloop, h1]
    simp only [List.range_zero, List.map_nil, flatMap_const_nil, pushAll_nil]

/-- C3, counterexample. A single patch of shape `0 x 0` makes `getVehicleMesh` read
element `[0][0]` of a grid without elements, and a single patch of shape
`(2^32 + 1) x 1` makes it loop for ever; in neither case does it return the zero
pairs that `max(0, R-1) * max(0, C-1)` announces. -/
theorem getVehicleMesh_single_patch_count_fails :
    (¬ ∃ fuel P N, getVehicleMesh fuel emptyGridMesh = Outcome.ok (P, N)
        ∧ P.length = 0 ∧ N.length = 0)
      ∧ ¬ ∃ fuel P N, getVehicleMesh fuel tallMesh = Outcome.ok (P, N)
        ∧ P.length = 0 ∧ N.length = 0 := by
  constructor
  · rintro ⟨fuel, P, N, h, _⟩
    exact emptyGridMesh_never_ok ⟨fuel, (P, N), h⟩
  · rintro ⟨fuel, P, N, h, _⟩
    exact tallMesh_never_ok ⟨fuel, (P, N), h⟩

/-- C3, amended. For every single patch of shape `R x C` with `1 <= R <= 2^32` and
`1 <= C <= 2^32` and a normal grid of the same shape, `getVehicleMesh` returns
exactly `(R-1) * (C-1)` points and as many normals. -/
theorem getVehicleMesh_single_patch_count (fuel : Nat) (a b : MultiArray Vector3d)
    (hshape : a.shape = b.shape) (hr : 1 ≤ a.shape0) (hr2 : a.shape0 ≤ uintModulus)
    (hc : 1 ≤ a.shape1) (hc2 : a.shape1 ≤ uintModulus) (hfuel : uintModulus ≤ fuel) :
    ∃ P N, getVehicleMesh fuel (HypersonicLocalInclinationAnalysis.ofMesh [a] [b]) = Outcome.ok (P, N)
      ∧ P.length = (a.shape0 - 1) * (a.shape1 - 1)
      ∧ N.length = (a.shape0 - 1) * (a.shape1 - 1) := by
  have hm : MatchingShapes [a] [b] := by simp [MatchingShapes, hshape]
  have hne : NonEmptyGrids [a] := by
    intro x hx
    rw [List.mem_singleton] at hx
    subst hx
    exact ⟨hr, hc⟩
  have hfit : FitsCounters [a] := by
    refine ⟨(by decide : 1 < uintModulus), ?_⟩
    intro x hx
    rw [List.mem_singleton] at hx
    subst hx
    exact ⟨hr2, hc2⟩
  refine ⟨_, _, getVehicleMesh_eq_flatten fuel (HypersonicLocalInclinationAnalysis.ofMesh [a] [b])
    hm hne hfit hfuel, ?_, ?_⟩
  · simp [HypersonicLocalInclinationAnalysis.ofMesh, length_flattenGrid]
  · have hs0 : a.shape0 = b.shape0 := congrArg Prod.fst hshape
    have hs1 : a.shape1 = b.shape1 := congrArg Prod.snd hshape
    simp [HypersonicLocalInclinationAnalysis.ofMesh, length_flattenGrid, hs0, hs1]

/-- Witness of C3 (amended) on a patch of shape `3 x 4`: six pairs. -/
theorem getVehicleMesh_single_patch_count_witness :
    ∃ P N, getVehicleMesh uintModulus
        (HypersonicLocalInclinationAnalysis.ofMesh [sampleGrid 0 3 4] [sampleGrid 1 3 4])
        = Outcome.ok (P, N)
      ∧ P.length = (3 - 1) * (4 - 1) ∧ N.length = (3 - 1) * (4 - 1) :=
  getVehicleMesh_single_patch_count uintModulus (sampleGrid 0 3 4) (sampleGrid 1 3 4) rfl
    (by decide) (by decide) (by decide) (by decide) (Nat.le_refl _)

/-- C4, the code at the failing input. With the single grid of shape `0 x 0` the
function faults, and never returns whatever the fuel, while on the same part
list with that grid removed it returns two empty sequences. -/
theorem getVehicleMesh_empty_grid_faults :
    getVehicleMesh uintModulus emptyGridMesh = Outcome.fault
      ∧ (¬ ∃ fuel out, getVehicleMesh fuel emptyGridMesh = Outcome.ok out)
      ∧ getVehicleMesh uintModulus (HypersonicLocalInclinationAnalysis.ofMesh [] [])
        = Outcome.ok ([], []) :=
  ⟨by decide, emptyGridMesh_never_ok, by decide⟩

/-- C5, counterexample. The one-patch list of shape `(2^32 + 1) x 1` has `R >= 1`
and `C >= 1` and a normal grid of the same shape, and `getVehicleMesh` returns no
two sequences for it, of the announced length `(R-1) * (C-1) = 0` or of any other. -/
theorem getVehicleMesh_tall_no_length :
    NonEmptyGrids tallMesh.getMeshPoints
      ∧ MatchingShapes tallMesh.getMeshPoints tallMesh.getPanelSurfaceNormals
      ∧ ¬ ∃ fuel P N, getVehicleMesh fuel tallMesh = Outcome.ok (P, N)
        ∧ P.length = (tallMesh.getMeshPoints.map fun a => (a.shape0 - 1) * (a.shape1 - 1)).sum
        ∧ N.length = (tallMesh.getMeshPoints.map fun a => (a.shape0 - 1) * (a.shape1 - 1)).sum := by
  refine ⟨by decide, by decide, ?_⟩
  rintro ⟨fuel, P, N, h, _⟩
  exact tallMesh_never_ok ⟨fuel, (P, N), h⟩

/-- C5, amended. For every list of fewer than `2^32` patches with shapes
`R_i x C_i`, `1 <= R_i <= 2^32` and `1 <= C_i <= 2^32`, and normal grids of
matching shapes, `getVehicleMesh` returns two sequences that each have length
the sum over `i` of `(R_i-1) * (C_i-1)`, and each is the concatenation, in patch
order, of the row-major flattenings of the single patches (all pairs of patch 0
before all pairs of patch 1, and so on). -/
theorem getVehicleMesh_lengths_and_order (fuel : Nat) (g : HypersonicLocalInclinationAnalysis)
    (hm : MatchingShapes g.getMeshPoints g.getPanelSurfaceNormals)
    (hne : NonEmptyGrids g.getMeshPoints) (hfit : FitsCounters g.getMeshPoints)
    (hfuel : uintModulus ≤ fuel) :
    ∃ P N, getVehicleMesh fuel g = Outcome.ok (P, N)
      ∧ P.length = (g.getMeshPoints.map fun a => (a.shape0 - 1) * (a.shape1 - 1)).sum
      ∧ N.length = (g.getMeshPoints.map fun a => (a.shape0 - 1) * (a.shape1 - 1)).sum
      ∧ P = g.getMeshPoints.flatMap flattenGrid
      ∧ N = g.getPanelSurfaceNormals.flatMap flattenGrid := by
  refine ⟨_, _, getVehicleMesh_eq_flatten fuel g hm hne hfit hfuel,
    length_flatMap_flattenGrid _, ?_, rfl, rfl⟩
  rw [length_flatMap_flattenGrid]
  have h1 : (g.getPanelSurfaceNormals.map fun a => (a.shape0 - 1) * (a.shape1 - 1))
      = (g.getPanelSurfaceNormals.map MultiArray.shape).map fun sh => (sh.1 - 1) * (sh.2 - 1) := by
    simp [List.map_map, Function.comp_def, MultiArray.shape]
  have h2 : (g.getMeshPoints.map fun a => (a.shape0 - 1) * (a.shape1 - 1))
      = (g.getMeshPoints.map MultiArray.shape).map fun sh => (sh.1 - 1) * (sh.2 - 1) := by
    simp [List.map_map, Function.comp_def, MultiArray.shape]
  rw [h1, h2, show g.getMeshPoints.map MultiArray.shape
    = g.getPanelSurfaceNormals.map MultiArray.shape from hm]

/-- Witness of C5 (amended): two patches of shapes `3 x 3` and `2 x 2` give five
pairs, the first four from patch 0 (rows 0-1, columns 0-1, row-major) and the
last from patch 1 (row 0, column 0). -/
theorem getVehicleMesh_lengths_and_order_witness :
    (∃ P N, getVehicleMesh uintModulus twoPatchMesh = Outcome.ok (P, N)
      ∧ P.length = (twoPatchMesh.getMeshPoints.map fun a => (a.shape0 - 1) * (a.shape1 - 1)).sum
      ∧ N.length = (twoPatchMesh.getMeshPoints.map fun a => (a.shape0 - 1) * (a.shape1 - 1)).sum
      ∧ P = twoPatchMesh.getMeshPoints.flatMap flattenGrid
      ∧ N = twoPatchMesh.getPanelSurfaceNormals.flatMap flattenGrid)
    ∧ (twoPatchMesh.getMeshPoints.map fun a => (a.shape0 - 1) * (a.shape1 - 1)).sum = 5
    ∧ getVehicleMesh uintModulus twoPatchMesh = Outcome.ok
        ([vec 0 0 0, vec 0 0 1, vec 0 1 0, vec 0 1 1, vec 1 0 0],
         [vec 10 0 0, vec 10 0 1, vec 10 1 0, vec 10 1 1, vec 11 0 0]) :=
  ⟨getVehicleMesh_lengths_and_order uintModulus twoPatchMesh (by decide) (by decide) (by decide)
    (Nat.le_refl _), by decide, by decide⟩

/-- C6, counterexample. For the patch of shape `(2^32 + 1) x 1` with a normal grid
of the same shape, `getVehicleMesh` returns no points sequence and no normals
sequence whose lengths could be compared. -/
theorem getVehicleMesh_tall_no_sequences :
    MatchingShapes tallMesh.getMeshPoints tallMesh.getPanelSurfaceNormals
      ∧ NonEmptyGrids tallMesh.getMeshPoints
      ∧ ¬ ∃ fuel P N, getVehicleMesh fuel tallMesh = Outcome.ok (P, N) ∧ P.length = N.length := by
  refine ⟨by decide, by decide, ?_⟩
  rintro ⟨fuel, P, N, h, _⟩
  exact tallMesh_never_ok ⟨fuel, (P, N), h⟩

/-- C6, amended. For every input whose point grids and normal grids have matching
shapes, each grid with at least one row and one column, with fewer than `2^32`
grids of at most `2^32` rows and columns, `getVehicleMesh` returns, and the
points sequence and the normals sequence of any pair it returns, with whatever
fuel, have identical length. -/
theorem getVehicleMesh_same_length (fuel : Nat) (g : HypersonicLocalInclinationAnalysis)
    (hm : MatchingShapes g.getMeshPoints g.getPanelSurfaceNormals)
    (hne : NonEmptyGrids g.getMeshPoints) (hfit : FitsCounters g.getMeshPoints)
    (hfuel : uintModulus ≤ fuel) :
    (∃ P N, getVehicleMesh fuel g = Outcome.ok (P, N) ∧ P.length = N.length)
      ∧ ∀ fuel1 P N, getVehicleMesh fuel1 g = Outcome.ok (P, N) → P.length = N.length := by
  have h := getVehicleMesh_eq_flatten fuel g hm hne hfit hfuel
  exact ⟨⟨_, _, h, getVehicleMesh_lockstep fuel g _ _ h⟩,
    fun fuel1 P N h1 => getVehicleMesh_lockstep fuel1 g P N h1⟩

/-- Witness of C6 (amended) on patches of shapes `3 x 3` and `2 x 2`. -/
theorem getVehicleMesh_same_length_witness :
    (∃ P N, getVehicleMesh uintModulus twoPatchMesh = Outcome.ok (P, N) ∧ P.length = N.length)
      ∧ ∀ fuel1 P N, getVehicleMesh fuel1 twoPatchMesh = Outcome.ok (P, N) → P.length = N.length :=
  getVehicleMesh_same_length uintModulus twoPatchMesh (by decide) (by decide) (by decide)
    (Nat.le_refl _)

/-- C7, counterexample. The single patch of shape `R x 1` with `R = 2^32 + 1` does
not make `getVehicleMesh` return two empty sequences: it never returns. -/
theorem getVehicleMesh_tall_not_empty :
    (∃ a, tallMesh.getMeshPoints = [a] ∧ 1 ≤ a.shape0 ∧ a.shape1 = 1)
      ∧ ¬ ∃ fuel, getVehicleMesh fuel tallMesh = Outcome.ok ([], []) := by
  refine ⟨⟨zeroGrid (2 ^ 32 + 1) 1, rfl, by decide, rfl⟩, ?_⟩
  rintro ⟨fuel, h⟩
  exact tallMesh_never_ok ⟨fuel, ([], []), h⟩

/-- C7, amended. For every single patch with exactly one row (shape `1 x C`, any
`C`) or exactly one column and at most `2^32` rows (shape `R x 1`,
`1 <= R <= 2^32`), whatever the normal grids, `getVehicleMesh` returns two empty
sequences. -/
theorem getVehicleMesh_degenerate_patch (fuel : Nat) (a : MultiArray Vector3d)
    (ns : List (MultiArray Vector3d)) (hfuel : uintModulus ≤ fuel)
    (h : a.shape0 = 1 ∨ (1 ≤ a.shape0 ∧ a.shape0 ≤ uintModulus ∧ a.shape1 = 1)) :
    getVehicleMesh fuel (HypersonicLocalInclinationAnalysis.ofMesh [a] ns) = Outcome.ok ([], []) := by
  have hloop := meshLoopI_ok [a] ns fuel (fun _ => []) (by decide : 1 < uintModulus) fuel 0
    { counter := 0, meshPointsList := [], surfaceNormalsList := [] } (Nat.zero_le _)
    (by
      have : 0 < uintModulus := by decide
      simp only [List.length_singleton]
      have h32 : 2 ≤ uintModulus := by decide
      omega)
    (by
      intro i1 a1 _ ha1 st1
      have hmem : a1 ∈ [a] := List.get?_mem ha1
      rw [List.mem_singleton] at hmem
      subst hmem
      rw [meshLoopJ_no_cells a1 _ fuel hfuel h st1, pushAll_nil])
  unfold getVehicleMesh HypersonicLocalInclinationAnalysis.ofMesh
  simp only [hloop]
  simp [pushAll_nil]

/-- Witness of C7 (amended) on a patch of shape `1 x 5` and on a patch of shape `4 x 1`. -/
theorem getVehicleMesh_degenerate_patch_witness :
    getVehicleMesh uintModulus
        (HypersonicLocalInclinationAnalysis.ofMesh [sampleGrid 0 1 5] [sampleGrid 1 1 5])
        = Outcome.ok ([], [])
      ∧ getVehicleMesh uintModulus
        (HypersonicLocalInclinationAnalysis.ofMesh [sampleGrid 0 4 1] [sampleGrid 1 4 1])
        = Outcome.ok ([], []) :=
  ⟨getVehicleMesh_degenerate_patch uintModulus (sampleGrid 0 1 5) _ (Nat.le_refl _) (Or.inl rfl),
    getVehicleMesh_degenerate_patch uintModulus (sampleGrid 0 4 1) _ (Nat.le_refl _)
      (Or.inr ⟨by decide, by decide, rfl⟩)⟩

/-- The inner loop reads only cells below its bound: two grid pairs with the same
column extent that read alike there give the same run. -/
theorem meshLoopK_congr (a1 a2 : MultiArray Vector3d) (n1 n2 : Option (MultiArray Vector3d))
    (j : Nat) (hs : a1.shape1 = a2.shape1)
    (h : ∀ k, k < sizeMinusOne a1.shape1 → readCell a1 n1 j k = readCell a2 n2 j k) :
    ∀ (fuel k : Nat) (st : MeshState),
      meshLoopK a1 n1 j fuel k st = meshLoopK a2 n2 j fuel k st := by
  intro fuel
  induction fuel with
  | zero => intro k st; rfl
  | succ n ih =>
    intro k st
    rw [meshLoopK, meshLoopK, ← hs]
    by_cases hk : k < sizeMinusOne a1.shape1
    · rw [if_pos hk, if_pos hk, ← h k hk]
      cases readCell a1 n1 j k with
      | none => rfl
      | some c => exact ih _ _
    · rw [if_neg hk, if_neg hk]

theorem meshLoopJ_congr (a1 a2 : MultiArray Vector3d) (n1 n2 : Option (MultiArray Vector3d))
    (inner : Nat) (hs0 : a1.shape0 = a2.shape0) (hs1 : a1.shape1 = a2.shape1)
    (h : ∀ j k, j < sizeMinusOne a1.shape0 → k < sizeMinusOne a1.shape1 →
      readCell a1 n1 j k = readCell a2 n2 j k) :
    ∀ (fuel j : Nat) (st : MeshState),
      meshLoopJ a1 n1 inner fuel j st = meshLoopJ a2 n2 inner fuel j st := by
  intro fuel
  induction fuel with
  | zero => intro j st; rfl
  | succ n ih =>
    intro j st
    rw [meshLoopJ, meshLoopJ, ← hs0]
    by_cases hj : j < sizeMinusOne a1.shape0
    · rw [if_pos hj, if_pos hj, meshLoopK_congr a1 a2 n1 n2 j hs1 (fun k hk => h j k hj hk)]
      cases meshLoopK a2 n2 j inner 0 st with
      | ok st1 => exact ih _ _
      | fault => rfl
      | timeout => rfl
    · rw [if_neg hj, if_neg hj]

theorem meshLoopI_congr (ps1 ps2 ns1 ns2 : List (MultiArray Vector3d)) (inner : Nat)
    (hlen : ps1.length = ps2.length)
    (h : ∀ i a1, ps1.get? i = some a1 → ∃ a2, ps2.get? i = some a2 ∧ a1.shape0 = a2.shape0
      ∧ a1.shape1 = a2.shape1 ∧ ∀ j k, j < sizeMinusOne a1.shape0 → k < sizeMinusOne a1.shape1 →
        readCell a1 (ns1.get? i) j k = readCell a2 (ns2.get? i) j k) :
    ∀ (fuel i : Nat) (st : MeshState),
      meshLoopI ps1 ns1 inner fuel i st = meshLoopI ps2 ns2 inner fuel i st := by
  intro fuel
  induction fuel with
  | zero => intro i st; rfl
  | succ n ih =>
    intro i st
    rw [meshLoopI, meshLoopI, ← hlen]
    by_cases hi : i < ps1.length
    · rw [if_pos hi, if_pos hi]
      have hget : ps1.get? i = some (ps1.get ⟨i, hi⟩) := List.get?_eq_get hi
      obtain ⟨a2, ha2, hs0, hs1, hcell⟩ := h i _ hget
      rw [hget, ha2]
      simp only
      rw [meshLoopJ_congr _ a2 (ns1.get? i) (ns2.get? i) inner hs0 hs1 hcell]
      cases meshLoopJ a2 (ns2.get? i) inner inner 0 st with
      | ok st1 => exact ih _ _
      | fault => rfl
      | timeout => rfl
    · rw [if_neg hi, if_neg hi]

theorem getVehicleMesh_congr (g1 g2 : HypersonicLocalInclinationAnalysis)
    (hlen : g1.getMeshPoints.length = g2.getMeshPoints.length)
    (h : ∀ i a1, g1.getMeshPoints.get? i = some a1 → ∃ a2, g2.getMeshPoints.get? i = some a2
      ∧ a1.shape0 = a2.shape0 ∧ a1.shape1 = a2.shape1
      ∧ ∀ j k, j < sizeMinusOne a1.shape0 → k < sizeMinusOne a1.shape1 →
        readCell a1 (g1.getPanelSurfaceNormals.get? i) j k
          = readCell a2 (g2.getPanelSurfaceNormals.get? i) j k)
    (fuel : Nat) : getVehicleMesh fuel g1 = getVehicleMesh fuel g2 := by
  unfold getVehicleMesh
  rw [meshLoopI_congr _ _ _ _ fuel hlen h]

theorem sizeMinusOne_le (n : Nat) (h : 1 ≤ n) : sizeMinusOne n ≤ n - 1 := by
  unfold sizeMinusOne
  have h1 : n + (sizeModulus - 1) = (n - 1) + sizeModulus := by
    unfold sizeModulus
    omega
  rw [h1, Nat.add_mod_right]
  exact Nat.mod_le _ _

theorem mem_meshCells (shapes : List (Nat × Nat)) (i j k : Nat) :
    (i, j, k) ∈ meshCells shapes ↔ ∃ sh, shapes.get? i = some sh ∧ j < sh.1 - 1 ∧ k < sh.2 - 1 := by
  unfold meshCells
  simp only [List.mem_flatMap, List.mem_map, Prod.mk.injEq]
  constructor
  · rintro ⟨⟨i1, sh⟩, hmem, ⟨j1, k1⟩, hjk, rfl, rfl, rfl⟩
    refine ⟨sh, ?_, (mem_interiorCells _ _).1 hjk⟩
    rw [List.get?_eq_getElem?]
    exact List.mem_enum_iff_getElem?.1 hmem
  · rintro ⟨sh, hget, hj, hk⟩
    rw [List.get?_eq_getElem?] at hget
    refine ⟨(i, sh), List.mem_enum_iff_getElem?.2 hget, (j, k), ?_, rfl, rfl, rfl⟩
    exact (mem_interiorCells _ _).2 ⟨hj, hk⟩

theorem get?_map_shape (gs : List (MultiArray Vector3d)) (i : Nat) (a : MultiArray Vector3d)
    (h : gs.get? i = some a) : (gs.map MultiArray.shape).get? i = some a.shape := by
  rw [List.get?_eq_getElem?, List.getElem?_map, ← List.get?_eq_getElem?, h]
  rfl

/-- Agreement on the interior cells, grid by grid. -/
theorem agree_elems {gs1 gs2 : List (MultiArray Vector3d)} (hagree : AgreeOnInterior gs1 gs2)
    (i : Nat) (a1 a2 : MultiArray Vector3d) (h1 : gs1.get? i = some a1) (h2 : gs2.get? i = some a2)
    (hs : a1.shape = a2.shape) (j k : Nat) (hj : j < a1.shape0 - 1) (hk : k < a1.shape1 - 1) :
    a1.elems j k = a2.elems j k := by
  have hmem : (i, j, k) ∈ meshCells (gs1.map MultiArray.shape) :=
    (mem_meshCells _ _ _ _).2 ⟨a1.shape, get?_map_shape gs1 i a1 h1, hj, hk⟩
  have h := hagree _ hmem
  have hs0 : a1.shape0 = a2.shape0 := congrArg Prod.fst hs
  have hs1 : a1.shape1 = a2.shape1 := congrArg Prod.snd hs
  have hin1 : j < a1.shape0 ∧ k < a1.shape1 := ⟨by omega, by omega⟩
  have hin2 : j < a2.shape0 ∧ k < a2.shape1 := ⟨by omega, by omega⟩
  simp only [elemAt, h1, h2, MultiArray.at2, hin1, hin2, and_self, if_true, Option.some.injEq] at h
  exact h

theorem readCell_in_range (a b : MultiArray Vector3d) (j k : Nat)
    (ha : j < a.shape0 ∧ k < a.shape1) (hb : j < b.shape0 ∧ k < b.shape1) :
    readCell a (some b) j k = some (a.elems j k, b.elems j k) := by
  simp [readCell, MultiArray.at2, ha, hb]

/-- C14, counterexample. A `3 x 3` point grid with a `2 x 2` normal grid: the loops
read the whole normal grid, its last row and last column included. Two inputs of
the same shapes that agree at every cell `(j, k)` with `j <= R-2` and `k <= C-2`
of every grid, and differ in the last row and column of the normal grid only,
give different results. -/
theorem getVehicleMesh_reads_last_row_of_short_normals :
    shortNormalsMesh.getMeshPoints.map MultiArray.shape
        = shortNormalsMeshPatched.getMeshPoints.map MultiArray.shape
      ∧ shortNormalsMesh.getPanelSurfaceNormals.map MultiArray.shape
        = shortNormalsMeshPatched.getPanelSurfaceNormals.map MultiArray.shape
      ∧ NonEmptyGrids shortNormalsMesh.getMeshPoints
      ∧ NonEmptyGrids shortNormalsMesh.getPanelSurfaceNormals
      ∧ AgreeOnInterior shortNormalsMesh.getMeshPoints shortNormalsMeshPatched.getMeshPoints
      ∧ AgreeOnInterior shortNormalsMesh.getPanelSurfaceNormals
          shortNormalsMeshPatched.getPanelSurfaceNormals
      ∧ getVehicleMesh uintModulus shortNormalsMesh = Outcome.ok
          ([vec 0 0 0, vec 0 0 1, vec 0 1 0, vec 0 1 1],
           [vec 10 0 0, vec 10 0 1, vec 10 1 0, vec 10 1 1])
      ∧ getVehicleMesh uintModulus shortNormalsMeshPatched = Outcome.ok
          ([vec 0 0 0, vec 0 0 1, vec 0 1 0, vec 0 1 1],
           [vec 10 0 0, vec 99 0 1, vec 99 1 0, vec 99 1 1])
      ∧ getVehicleMesh uintModulus shortNormalsMesh
        ≠ getVehicleMesh uintModulus shortNormalsMeshPatched := by
  refine ⟨by decide, by decide, by decide, by decide, by decide, by decide, by decide, by decide,
    by decide⟩

/-- C14, amended. Take two inputs with the same grid shapes, in which the normal
grids have the shapes of the point grids and each grid has at least one row and
one column, whose point grids and normal grids agree at every cell `(j, k)` with
`j <= R-2` and `k <= C-2`. Then `getVehicleMesh` behaves alike on both, whatever
the fuel, and within the range of the loop counters it returns one and the same
pair for both. -/
theorem getVehicleMesh_ignores_last_row_and_column (g1 g2 : HypersonicLocalInclinationAnalysis)
    (hP : g1.getMeshPoints.map MultiArray.shape = g2.getMeshPoints.map MultiArray.shape)
    (hN : g1.getPanelSurfaceNormals.map MultiArray.shape
      = g2.getPanelSurfaceNormals.map MultiArray.shape)
    (hm : MatchingShapes g1.getMeshPoints g1.getPanelSurfaceNormals)
    (hne : NonEmptyGrids g1.getMeshPoints)
    (haP : AgreeOnInterior g1.getMeshPoints g2.getMeshPoints)
    (haN : AgreeOnInterior g1.getPanelSurfaceNormals g2.getPanelSurfaceNormals) :
    (∀ fuel, getVehicleMesh fuel g1 = getVehicleMesh fuel g2)
      ∧ (FitsCounters g1.getMeshPoints → ∀ fuel, uintModulus ≤ fuel →
          ∃ out, getVehicleMesh fuel g1 = Outcome.ok out ∧ getVehicleMesh fuel g2 = Outcome.ok out) := by
  have hall : ∀ fuel, getVehicleMesh fuel g1 = getVehicleMesh fuel g2 := by
    apply getVehicleMesh_congr g1 g2
    · have := congrArg List.length hP
      simpa using this
    · intro i a1 ha1
      obtain ⟨a2, ha2, hsa⟩ := matching_get? (show MatchingShapes _ _ from hP) i a1 ha1
      obtain ⟨b1, hb1, hsab⟩ := matching_get? hm i a1 ha1
      obtain ⟨b2, hb2, hsb⟩ := matching_get? (show MatchingShapes _ _ from hN) i b1 hb1
      have hmem : a1 ∈ g1.getMeshPoints := List.get?_mem ha1
      have hs0 : a1.shape0 = a2.shape0 := congrArg Prod.fst hsa
      have hs1 : a1.shape1 = a2.shape1 := congrArg Prod.snd hsa
      have hab0 : a1.shape0 = b1.shape0 := congrArg Prod.fst hsab
      have hab1 : a1.shape1 = b1.shape1 := congrArg Prod.snd hsab
      have hb0 : b1.shape0 = b2.shape0 := congrArg Prod.fst hsb
      have hb1s : b1.shape1 = b2.shape1 := congrArg Prod.snd hsb
      refine ⟨a2, ha2, hs0, hs1, ?_⟩
      intro j k hj hk
      have hj1 := Nat.lt_of_lt_of_le hj (sizeMinusOne_le _ (hne a1 hmem).1)
      have hk1 := Nat.lt_of_lt_of_le hk (sizeMinusOne_le _ (hne a1 hmem).2)
      rw [hb1, hb2, readCell_in_range a1 b1 j k ⟨by omega, by omega⟩ ⟨by omega, by omega⟩,
        readCell_in_range a2 b2 j k ⟨by omega, by omega⟩ ⟨by omega, by omega⟩,
        agree_elems haP i a1 a2 ha1 ha2 hsa j k hj1 hk1,
        agree_elems haN i b1 b2 hb1 hb2 hsb j k (by omega) (by omega)]
  refine ⟨hall, ?_⟩
  intro hfit fuel hfuel
  have h1 := getVehicleMesh_eq_flatten fuel g1 hm hne hfit hfuel
  exact ⟨_, h1, by rw [← hall fuel, h1]⟩

/-- Witness of C14 (amended): two `3 x 3` patches with `3 x 3` normal grids that
differ in the last row and the last column only. -/
theorem getVehicleMesh_ignores_last_row_and_column_witness :
    (∀ fuel, getVehicleMesh fuel lastRowMesh = getVehicleMesh fuel lastRowMeshPatched)
      ∧ (FitsCounters lastRowMesh.getMeshPoints → ∀ fuel, uintModulus ≤ fuel →
          ∃ out, getVehicleMesh fuel lastRowMesh = Outcome.ok out
            ∧ getVehicleMesh fuel lastRowMeshPatched = Outcome.ok out) :=
  getVehicleMesh_ignores_last_row_and_column lastRowMesh lastRowMeshPatched (by decide) (by decide)
    (by decide) (by decide) (by decide) (by decide)

/-- The inner loop faults as soon as one cell between its counter and its bound
cannot be read. -/
theorem meshLoopK_fault (pts : MultiArray Vector3d) (nrm : Option (MultiArray Vector3d)) (j : Nat)
    (hb : sizeMinusOne pts.shape1 < uintModulus) :
    ∀ (fuel k : Nat) (st : MeshState), sizeMinusOne pts.shape1 - k < fuel →
      (∃ k1, k ≤ k1 ∧ k1 < sizeMinusOne pts.shape1 ∧ readCell pts nrm j k1 = none) →
      meshLoopK pts nrm j fuel k st = Outcome.fault := by
  intro fuel
  induction fuel with
  | zero => intro k st h; omega
  | succ n ih =>
    intro k st hfuel hex
    obtain ⟨k1, hk1, hk1b, hnone⟩ := hex
    have hlt : k < sizeMinusOne pts.shape1 := by omega
    rw [meshLoopK, if_pos hlt]
    cases hc : readCell pts nrm j k with
    | none => rfl
    | some c =>
      have hne : k ≠ k1 := by
        intro heq
        rw [heq, hnone] at hc
        exact Option.noConfusion hc
      simp only
      rw [uintSucc_of_lt k _ hlt hb]
      exact ih (k + 1) _ (by omega) ⟨k1, by omega, hk1b, hnone⟩

/-- The middle loop faults as soon as one cell of a row between its counter and its
bound cannot be read. -/
theorem meshLoopJ_fault (pts : MultiArray Vector3d) (nrm : Option (MultiArray Vector3d))
    (inner : Nat) (hb0 : sizeMinusOne pts.shape0 < uintModulus)
    (hb1 : sizeMinusOne pts.shape1 < uintModulus) (hinner : sizeMinusOne pts.shape1 < inner) :
    ∀ (fuel j : Nat) (st : MeshState), sizeMinusOne pts.shape0 - j < fuel →
      (∃ j1 k1, j ≤ j1 ∧ j1 < sizeMinusOne pts.shape0 ∧ k1 < sizeMinusOne pts.shape1
        ∧ readCell pts nrm j1 k1 = none) →
      meshLoopJ pts nrm inner fuel j st = Outcome.fault := by
  intro fuel
  induction fuel with
  | zero => intro j st h; omega
  | succ n ih =>
    intro j st hfuel hex
    obtain ⟨j1, k1, hj1, hj1b, hk1b, hnone⟩ := hex
    have hlt : j < sizeMinusOne pts.shape0 := by omega
    rw [meshLoopJ, if_pos hlt]
    by_cases hrow : ∃ k2, k2 < sizeMinusOne pts.shape1 ∧ readCell pts nrm j k2 = none
    · obtain ⟨k2, hk2, hnone2⟩ := hrow
      rw [meshLoopK_fault pts nrm j hb1 inner 0 st (by omega) ⟨k2, Nat.zero_le _, hk2, hnone2⟩]
    · have hread : ∀ k2, 0 ≤ k2 → k2 < sizeMinusOne pts.shape1 →
          readCell pts nrm j k2 = some ((readCell pts nrm j k2).getD (vec 0 0 0, vec 0 0 0)) := by
        intro k2 _ hk2
        cases hc : readCell pts nrm j k2 with
        | none => exact absurd ⟨k2, hk2, hc⟩ hrow
        | some c => rfl
      rw [meshLoopK_ok pts nrm j _ hb1 inner 0 st (Nat.zero_le _) (by omega) hread]
      have hne : j ≠ j1 := by
        intro heq
        exact hrow ⟨k1, hk1b, heq ▸ hnone⟩
      simp only
      rw [uintSucc_of_lt j _ hlt hb0]
      exact ih (j + 1) _ (by omega) ⟨j1, k1, by omega, hj1b, hk1b, hnone⟩

/-- The outer loop faults as soon as one guarded cell of a part between its counter
and its bound cannot be read. -/
theorem meshLoopI_fault (ps ns : List (MultiArray Vector3d)) (inner : Nat)
    (hfit : FitsCounters ps) (hne : NonEmptyGrids ps) (hinner : uintModulus ≤ inner) :
    ∀ (fuel i : Nat) (st : MeshState), ps.length - i < fuel →
      (∃ i1 a j k, i ≤ i1 ∧ ps.get? i1 = some a ∧ j < sizeMinusOne a.shape0
        ∧ k < sizeMinusOne a.shape1 ∧ readCell a (ns.get? i1) j k = none) →
      meshLoopI ps ns inner fuel i st = Outcome.fault := by
  intro fuel
  induction fuel with
  | zero => intro i st h; omega
  | succ n ih =>
    intro i st hfuel hex
    obtain ⟨i1, a1, j1, k1, hi1, hget1, hj1, hk1, hnone⟩ := hex
    have hi1lt : i1 < ps.length := by
      rw [List.get?_eq_getElem?] at hget1
      exact (List.getElem?_eq_some_iff.1 hget1).1
    have hlt : i < ps.length := by omega
    have hget : ps.get? i = some (ps.get ⟨i, hlt⟩) := List.get?_eq_get hlt
    have hmem : ps.get ⟨i, hlt⟩ ∈ ps := List.get_mem ps i hlt
    have hs0 := sizeMinusOne_of_pos _ (hne _ hmem).1 (hfit.2 _ hmem).1
    have hs1 := sizeMinusOne_of_pos _ (hne _ hmem).2 (hfit.2 _ hmem).2
    have hpos : 0 < uintModulus := by decide
    have hb0 : sizeMinusOne (ps.get ⟨i, hlt⟩).shape0 < uintModulus := by
      have := (hfit.2 _ hmem).1
      omega
    have hb1 : sizeMinusOne (ps.get ⟨i, hlt⟩).shape1 < uintModulus := by
      have := (hfit.2 _ hmem).2
      omega
    rw [meshLoopI, if_pos hlt, hget]
    simp only
    by_cases hpart : ∃ j k, j < sizeMinusOne (ps.get ⟨i, hlt⟩).shape0
        ∧ k < sizeMinusOne (ps.get ⟨i, hlt⟩).shape1
        ∧ readCell (ps.get ⟨i, hlt⟩) (ns.get? i) j k = none
    · obtain ⟨j, k, hj, hk, hn⟩ := hpart
      rw [meshLoopJ_fault _ (ns.get? i) inner hb0 hb1 (by omega) inner 0 st (by omega)
        ⟨j, k, Nat.zero_le _, hj, hk, hn⟩]
    · have hread : ∀ j2 k2, 0 ≤ j2 → j2 < sizeMinusOne (ps.get ⟨i, hlt⟩).shape0 →
          k2 < sizeMinusOne (ps.get ⟨i, hlt⟩).shape1 →
          readCell (ps.get ⟨i, hlt⟩) (ns.get? i) j2 k2
            = some ((readCell (ps.get ⟨i, hlt⟩) (ns.get? i) j2 k2).getD (vec 0 0 0, vec 0 0 0)) := by
        intro j2 k2 _ hj2 hk2
        cases hc : readCell (ps.get ⟨i, hlt⟩) (ns.get? i) j2 k2 with
        | none => exact absurd ⟨j2, k2, hj2, hk2, hc⟩ hpart
        | some c => rfl
      rw [meshLoopJ_ok _ (ns.get? i) _ inner hb0 hb1 (by omega) inner 0 st (Nat.zero_le _)
        (by omega) hread]
      have hne1 : i ≠ i1 := by
        intro heq
        subst heq
        rw [hget] at hget1
        have ha : ps.get ⟨i, hlt⟩ = a1 := Option.some.inj hget1
        exact hpart ⟨j1, k1, ha ▸ hj1, ha ▸ hk1, ha ▸ hnone⟩
      simp only
      rw [uintSucc_of_lt i _ hlt hfit.1]
      exact ih (i + 1) _ (by omega) ⟨i1, a1, j1, k1, by omega, hget1, hj1, hk1, hnone⟩

/-- When some guarded read fails, `getVehicleMesh` faults. -/
theorem getVehicleMesh_fault_of_not_readable (fuel : Nat) (g : HypersonicLocalInclinationAnalysis)
    (hne : NonEmptyGrids g.getMeshPoints) (hfit : FitsCounters g.getMeshPoints)
    (hfuel : uintModulus ≤ fuel)
    (h : ¬ Readable g.getMeshPoints g.getPanelSurfaceNormals) :
    getVehicleMesh fuel g = Outcome.fault := by
  have hex : ∃ i1 a j k, 0 ≤ i1 ∧ g.getMeshPoints.get? i1 = some a ∧ j < sizeMinusOne a.shape0
      ∧ k < sizeMinusOne a.shape1 ∧ readCell a (g.getPanelSurfaceNormals.get? i1) j k = none := by
    by_contra hno
    apply h
    intro i a ha j k hj hk
    cases hc : readCell a (g.getPanelSurfaceNormals.get? i) j k with
    | none => exact absurd ⟨i, a, j, k, Nat.zero_le _, ha, hj, hk, hc⟩ hno
    | some c => rfl
  unfold getVehicleMesh
  rw [meshLoopI_fault _ _ fuel hfit hne hfuel fuel 0 _ (by have := hfit.1; omega) hex]

/-- When every guarded read succeeds, `getVehicleMesh` returns. -/
theorem getVehicleMesh_ok_of_readable (fuel : Nat) (g : HypersonicLocalInclinationAnalysis)
    (hne : NonEmptyGrids g.getMeshPoints) (hfit : FitsCounters g.getMeshPoints)
    (hfuel : uintModulus ≤ fuel)
    (h : Readable g.getMeshPoints g.getPanelSurfaceNormals) :
    ∃ out, getVehicleMesh fuel g = Outcome.ok out := by
  have hloop := meshLoopI_ok g.getMeshPoints g.getPanelSurfaceNormals fuel
    (fun i => match g.getMeshPoints.get? i with
      | none => []
      | some a => (List.range' 0 (sizeMinusOne a.shape0 - 0)).flatMap fun j1 =>
          (List.range (sizeMinusOne a.shape1)).map fun k1 =>
            (readCell a (g.getPanelSurfaceNormals.get? i) j1 k1).getD (vec 0 0 0, vec 0 0 0))
    hfit.1 fuel 0
    { counter := 0, meshPointsList := [], surfaceNormalsList := [] } (Nat.zero_le _)
    (by have := hfit.1; omega)
    (by
      intro i1 a _ ha st1
      have hmem : a ∈ g.getMeshPoints := List.get?_mem ha
      have hb0 : sizeMinusOne a.shape0 < uintModulus := by
        have h1 := sizeMinusOne_of_pos _ (hne _ hmem).1 (hfit.2 _ hmem).1
        have h2 := (hfit.2 _ hmem).1
        have h3 := (hne _ hmem).1
        omega
      have hb1 : sizeMinusOne a.shape1 < uintModulus := by
        have h1 := sizeMinusOne_of_pos _ (hne _ hmem).2 (hfit.2 _ hmem).2
        have h2 := (hfit.2 _ hmem).2
        have h3 := (hne _ hmem).2
        omega
      rw [meshLoopJ_ok a (g.getPanelSurfaceNormals.get? i1)
        (fun j1 k1 => (readCell a (g.getPanelSurfaceNormals.get? i1) j1 k1).getD
          (vec 0 0 0, vec 0 0 0)) fuel hb0 hb1 (by omega) fuel 0 st1 (Nat.zero_le _) (by omega)
        (by
          intro j1 k1 _ hj hk
          have hs := h i1 a ha j1 k1 hj hk
          cases hc : readCell a (g.getPanelSurfaceNormals.get? i1) j1 k1 with
          | none => rw [hc] at hs; exact absurd hs (by decide)
          | some c => simp only [hc, Option.getD_some])]
      simp only [ha])
  unfold getVehicleMesh
  rw [hloop]
  exact ⟨_, rfl⟩

/-- Within the guards of the loops, every subscript into a point grid with at
least one row and one column is in range. -/
theorem at2_guarded (a : MultiArray Vector3d) (hr : 1 ≤ a.shape0) (hc : 1 ≤ a.shape1) (j k : Nat)
    (hj : j < sizeMinusOne a.shape0) (hk : k < sizeMinusOne a.shape1) :
    a.at2 j k = some (a.elems j k) := by
  have hj1 := Nat.lt_of_lt_of_le hj (sizeMinusOne_le _ hr)
  have hk1 := Nat.lt_of_lt_of_le hk (sizeMinusOne_le _ hc)
  have hin : j < a.shape0 ∧ k < a.shape1 := ⟨by omega, by omega⟩
  simp [MultiArray.at2, hin]

theorem readCell_no_normals (a : MultiArray Vector3d) (j k : Nat) : readCell a none j k = none := by
  unfold readCell
  cases a.at2 j k <;> rfl

theorem readCell_out_of_range (a b : MultiArray Vector3d) (j k : Nat)
    (h : ¬ (j < b.shape0 ∧ k < b.shape1)) : readCell a (some b) j k = none := by
  unfold readCell
  cases a.at2 j k with
  | none => rfl
  | some p => simp [MultiArray.at2, h]

/-- For a point grid within the counters, the coverage test of its normals entry
says that every guarded pair of reads succeeds. -/
theorem coversPart_iff (a : MultiArray Vector3d) (nb : Option (MultiArray Vector3d))
    (hr : 1 ≤ a.shape0) (hr2 : a.shape0 ≤ uintModulus) (hc : 1 ≤ a.shape1)
    (hc2 : a.shape1 ≤ uintModulus) :
    coversPart a nb = true ↔ ∀ j k, j < sizeMinusOne a.shape0 → k < sizeMinusOne a.shape1 →
      (readCell a nb j k).isSome = true := by
  have hs0 := sizeMinusOne_of_pos _ hr hr2
  have hs1 := sizeMinusOne_of_pos _ hc hc2
  unfold coversPart
  by_cases hbig : 2 ≤ a.shape0 ∧ 2 ≤ a.shape1
  · rw [if_pos hbig]
    cases nb with
    | none =>
      constructor
      · intro h; exact absurd h Bool.false_ne_true
      · intro h
        have hcell := h (a.shape0 - 2) (a.shape1 - 2) (by omega) (by omega)
        rw [readCell_no_normals] at hcell
        exact absurd hcell (by decide)
    | some b =>
      simp only [decide_eq_true_eq]
      constructor
      · intro h j k hj hk
        rw [readCell_in_range a b j k ⟨by omega, by omega⟩ ⟨by omega, by omega⟩]
        rfl
      · intro h
        have hcell := h (a.shape0 - 2) (a.shape1 - 2) (by omega) (by omega)
        by_cases hb : a.shape0 - 2 < b.shape0 ∧ a.shape1 - 2 < b.shape1
        · exact ⟨by omega, by omega⟩
        · rw [readCell_out_of_range a b _ _ hb] at hcell
          exact absurd hcell (by decide)
  · rw [if_neg hbig]
    constructor
    · intro _ j k hj hk
      omega
    · intro _
      rfl

theorem readable_iff_covers (ps ns : List (MultiArray Vector3d)) (hne : NonEmptyGrids ps)
    (hfit : FitsCounters ps) : Readable ps ns ↔ Covers ps ns := by
  constructor
  · intro hread i hi
    have hget : ps.get? i = some (ps.get ⟨i, hi⟩) := List.get?_eq_get hi
    have hmem : ps.get ⟨i, hi⟩ ∈ ps := List.get_mem ps i hi
    unfold coversAt
    rw [hget]
    exact (coversPart_iff _ _ (hne _ hmem).1 (hfit.2 _ hmem).1 (hne _ hmem).2 (hfit.2 _ hmem).2).2
      (hread i _ hget)
  · intro hcov i a ha
    have hi : i < ps.length := by
      rw [List.get?_eq_getElem?] at ha
      exact (List.getElem?_eq_some_iff.1 ha).1
    have hmem : a ∈ ps := List.get?_mem ha
    have hc := hcov i hi
    unfold coversAt at hc
    rw [ha] at hc
    exact (coversPart_iff _ _ (hne _ hmem).1 (hfit.2 _ hmem).1 (hne _ hmem).2 (hfit.2 _ hmem).2).1 hc

/-- C15, counterexample. A patch of `2^32 + 1` rows and one column, then a `3 x 3`
patch, and an empty normals list: every point grid has a row and a column and
the `3 x 3` part has no normals entry, yet no subscript is ever out of range,
because the row loop of the first part never ends and the second part is never
reached. -/
theorem getVehicleMesh_tall_hides_missing_normals :
    NonEmptyGrids tallThenBareMesh.getMeshPoints
      ∧ ¬ Covers tallThenBareMesh.getMeshPoints tallThenBareMesh.getPanelSurfaceNormals
      ∧ ¬ ∃ fuel, getVehicleMesh fuel tallThenBareMesh = Outcome.fault := by
  refine ⟨by decide, by decide, ?_⟩
  rintro ⟨fuel, h⟩
  have ht : getVehicleMesh fuel tallThenBareMesh = Outcome.timeout :=
    getVehicleMesh_timeout fuel _ _ _ (by decide) (by decide)
  rw [ht] at h
  exact Outcome.noConfusion h

/-- C15, amended. For every input with fewer than `2^32` point grids, each of at
least one row and one column and at most `2^32` rows and columns, every
subscript into `meshPoints` that the loops let through is in range, and
`getVehicleMesh` runs without an out-of-range subscript into
`meshSurfaceNormals`, and then returns, if and only if, for each part `i` whose
point grid has `R_i >= 2` rows and `C_i >= 2` columns, the normals list has an
entry at index `i` with at least `R_i - 1` rows and at least `C_i - 1` columns. -/
theorem getVehicleMesh_indices_in_range (fuel : Nat) (g : HypersonicLocalInclinationAnalysis)
    (hne : NonEmptyGrids g.getMeshPoints) (hfit : FitsCounters g.getMeshPoints)
    (hfuel : uintModulus ≤ fuel) :
    (∀ a ∈ g.getMeshPoints, ∀ j k, j < sizeMinusOne a.shape0 → k < sizeMinusOne a.shape1 →
        a.at2 j k = some (a.elems j k))
      ∧ (getVehicleMesh fuel g ≠ Outcome.fault ↔ Covers g.getMeshPoints g.getPanelSurfaceNormals)
      ∧ (Covers g.getMeshPoints g.getPanelSurfaceNormals →
          ∃ out, getVehicleMesh fuel g = Outcome.ok out) := by
  have hok : Covers g.getMeshPoints g.getPanelSurfaceNormals →
      ∃ out, getVehicleMesh fuel g = Outcome.ok out := fun hcov =>
    getVehicleMesh_ok_of_readable fuel g hne hfit hfuel
      ((readable_iff_covers _ _ hne hfit).2 hcov)
  refine ⟨fun a ha j k hj hk => at2_guarded a (hne a ha).1 (hne a ha).2 j k hj hk, ?_, hok⟩
  constructor
  · intro hnf
    by_contra hcov
    exact hnf (getVehicleMesh_fault_of_not_readable fuel g hne hfit hfuel
      (fun hr => hcov ((readable_iff_covers _ _ hne hfit).1 hr)))
  · intro hcov hf
    obtain ⟨out, ho⟩ := hok hcov
    rw [ho] at hf
    exact Outcome.noConfusion hf

/-- Witness of C15 (amended): a `3 x 3` point grid with a `2 x 2` normal grid. The
shapes do not match, the normal grid covers the interior cells, and the function
returns. -/
theorem getVehicleMesh_indices_in_range_witness :
    ((∀ a ∈ shortNormalsMesh.getMeshPoints, ∀ j k, j < sizeMinusOne a.shape0 →
          k < sizeMinusOne a.shape1 → a.at2 j k = some (a.elems j k))
      ∧ (getVehicleMesh uintModulus shortNormalsMesh ≠ Outcome.fault
          ↔ Covers shortNormalsMesh.getMeshPoints shortNormalsMesh.getPanelSurfaceNormals)
      ∧ (Covers shortNormalsMesh.getMeshPoints shortNormalsMesh.getPanelSurfaceNormals →
          ∃ out, getVehicleMesh uintModulus shortNormalsMesh = Outcome.ok out))
    ∧ Covers shortNormalsMesh.getMeshPoints shortNormalsMesh.getPanelSurfaceNormals
    ∧ ¬ MatchingShapes shortNormalsMesh.getMeshPoints shortNormalsMesh.getPanelSurfaceNormals :=
  ⟨getVehicleMesh_indices_in_range uintModulus shortNormalsMesh (by decide) (by decide)
    (Nat.le_refl _), by decide, by decide⟩

/-- With read-only members the loop of `getTotalSurfaceArea` leaves the state as it was. -/
theorem areaLoopOn_state {σ : Type} (m : Members σ) (hro : m.ReadOnly) :
    ∀ (fuel : Nat) (i : Int) (total : Double) (s : σ), (areaLoopOn m fuel i total s).2 = s := by
  intro fuel
  induction fuel with
  | zero => intro i total s; rfl
  | succ n ih =>
    intro i total s
    rw [areaLoopOn]
    have h1 := hro.1 s
    by_cases hlt : i < (m.getNumberOfVehicleParts s).1
    · rw [if_pos hlt, h1]
      have h2 := hro.2.1 i s
      cases hc : m.getVehiclePartTotalArea i s with
      | mk v s2 =>
        rw [hc] at h2
        simp only at h2
        subst h2
        cases v with
        | none => rfl
        | some a => exact ih _ _ _
    · rw [if_neg hlt, h1]

theorem objectMembers_readOnly : objectMembers.ReadOnly :=
  ⟨fun _ => rfl, fun _ _ => rfl, fun _ => rfl, fun _ => rfl⟩

/-- On an object that is its own state, the threaded loop computes what `areaLoop` computes. -/
theorem areaLoopOn_objectMembers (g : HypersonicLocalInclinationAnalysis) :
    ∀ (fuel : Nat) (i : Int) (st : AreaState),
      areaLoopOn objectMembers fuel i st.totalSurfaceArea g
        = (match areaLoop g fuel i st with
            | Outcome.ok st1 => Outcome.ok st1.totalSurfaceArea
            | Outcome.fault => Outcome.fault
            | Outcome.timeout => Outcome.timeout, g) := by
  intro fuel
  induction fuel with
  | zero => intro i st; rfl
  | succ n ih =>
    intro i st
    rw [areaLoopOn, areaLoop]
    simp only [objectMembers]
    by_cases hlt : i < g.getNumberOfVehicleParts
    · rw [if_pos hlt, if_pos hlt]
      cases hp : g.getVehiclePart i with
      | none => rfl
      | some part =>
        simp only
        exact ih (i + 1) ⟨Double.add st.totalSurfaceArea (Double.fabs part.getTotalArea),
          st.calls ++ [i]⟩
    · rw [if_neg hlt, if_neg hlt]

theorem getTotalSurfaceAreaOn_objectMembers (g : HypersonicLocalInclinationAnalysis) :
    getTotalSurfaceAreaOn objectMembers (g.getNumberOfVehicleParts.toNat + 1) g
      = (getTotalSurfaceArea g, g) :=
  areaLoopOn_objectMembers g _ 0 { totalSurfaceArea := Double.zero, calls := [] }

theorem getVehicleMeshOn_objectMembers (fuel : Nat) (g : HypersonicLocalInclinationAnalysis) :
    getVehicleMeshOn objectMembers fuel g = (getVehicleMesh fuel g, g) := rfl

/-- C11. When the members called through the pointer leave the underlying object
as they find it, so do `getTotalSurfaceArea` and `getVehicleMesh` (the part list
and the grids are the same after the call as before it), and a second call on
the state left by the first returns what the first returned. -/
theorem calls_repeat_and_leave_object {σ : Type} (m : Members σ) (hro : m.ReadOnly) (fuel : Nat)
    (s : σ) :
    (getTotalSurfaceAreaOn m fuel s).2 = s
      ∧ getTotalSurfaceAreaOn m fuel (getTotalSurfaceAreaOn m fuel s).2
        = getTotalSurfaceAreaOn m fuel s
      ∧ (getVehicleMeshOn m fuel s).2 = s
      ∧ getVehicleMeshOn m fuel (getVehicleMeshOn m fuel s).2 = getVehicleMeshOn m fuel s := by
  have h1 : (getTotalSurfaceAreaOn m fuel s).2 = s := areaLoopOn_state m hro fuel 0 Double.zero s
  have h2 : (getVehicleMeshOn m fuel s).2 = s := by
    show (m.getPanelSurfaceNormals (m.getMeshPoints s).2).2 = s
    rw [hro.2.2.1 s, hro.2.2.2 s]
  refine ⟨h1, ?_, h2, ?_⟩
  · rw [h1]
  · rw [h2]

/-- Witness of C11 on an object with three parts and two patches: both calls
return, leave the object as it was, and return the same on a second call. -/
theorem calls_repeat_and_leave_object_witness :
    ((getTotalSurfaceAreaOn objectMembers 4 sampleAnalysis).2 = sampleAnalysis
      ∧ getTotalSurfaceAreaOn objectMembers 4 (getTotalSurfaceAreaOn objectMembers 4 sampleAnalysis).2
        = getTotalSurfaceAreaOn objectMembers 4 sampleAnalysis
      ∧ (getVehicleMeshOn objectMembers 4 sampleAnalysis).2 = sampleAnalysis
      ∧ getVehicleMeshOn objectMembers 4 (getVehicleMeshOn objectMembers 4 sampleAnalysis).2
        = getVehicleMeshOn objectMembers 4 sampleAnalysis)
    ∧ (getTotalSurfaceAreaOn objectMembers 4 sampleAnalysis).1 = Outcome.ok (Double.ofNat 6)
    ∧ (getVehicleMeshOn objectMembers 4 sampleAnalysis).1 = Outcome.ok
        ([vec 0 0 0, vec 0 0 1, vec 0 1 0, vec 0 1 1, vec 1 0 0],
         [vec 10 0 0, vec 10 0 1, vec 10 1 0, vec 10 1 1, vec 11 0 0]) :=
  ⟨calls_repeat_and_leave_object objectMembers objectMembers_readOnly 4 sampleAnalysis,
    by decide!, by decide!⟩

/-- In a table with consistent names, the first registration that matches a class
and a name is the same in every reordering of the table. -/
theorem find?_perm_of_consistent (t1 t2 : List Registration) (hperm : List.Perm t1 t2)
    (hcons : ConsistentNames t1) (cls name : String) :
    t2.find? (fun r => r.cls == cls && r.name == some name)
      = t1.find? (fun r => r.cls == cls && r.name == some name) := by
  cases h1 : t1.find? (fun r => r.cls == cls && r.name == some name) with
  | none =>
    rw [List.find?_eq_none] at h1 ⊢
    intro r hr
    exact h1 r (hperm.mem_iff.2 hr)
  | some r1 =>
    have hr1mem : r1 ∈ t1 := List.mem_of_find?_eq_some h1
    have hr1p := List.find?_some h1
    cases h2 : t2.find? (fun r => r.cls == cls && r.name == some name) with
    | none =>
      rw [List.find?_eq_none] at h2
      exact absurd hr1p (h2 r1 (hperm.mem_iff.1 hr1mem))
    | some r2 =>
      have hr2mem : r2 ∈ t1 := hperm.mem_iff.2 (List.mem_of_find?_eq_some h2)
      have hr2p := List.find?_some h2
      simp only [Bool.and_eq_true, beq_iff_eq] at hr1p hr2p
      have heq : r2 = r1 := hcons r2 hr2mem r1 hr1mem (hr2p.1.trans hr1p.1.symm)
        (hr2p.2.trans hr1p.2.symm) (by rw [hr2p.2]; exact Option.noConfusion)
      rw [heq]

theorem consistentNames_perm (t1 t2 : List Registration) (hperm : List.Perm t1 t2)
    (hcons : ConsistentNames t1) : ConsistentNames t2 :=
  fun r1 h1 r2 h2 => hcons r1 (hperm.mem_iff.2 h1) r2 (hperm.mem_iff.2 h2)

theorem exposureTable_consistent : ConsistentNames exposureTable := by decide!

theorem constantEphemerisInits_eq :
    constantEphemerisInits =
      [Registration.mk "ConstantEphemeris" RegistrationKind.init none
          "const std::function<Eigen::Vector6d()>, const std::string &, const std::string &" none
          [PyArg.mk "constant_state_function" none,
           PyArg.mk "reference_frame_origin" (some (DefaultValue.text "SSB")),
           PyArg.mk "reference_frame_orientation" (some (DefaultValue.text "ECLIPJ2000"))],
       Registration.mk "ConstantEphemeris" RegistrationKind.init none
          "const Eigen::Vector6d, const std::string &, const std::string &" none
          [PyArg.mk "constant_state" none,
           PyArg.mk "reference_frame_origin" (some (DefaultValue.text "SSB")),
           PyArg.mk "reference_frame_orientation" (some (DefaultValue.text "ECLIPJ2000"))]] := by
  decide!

/-- C12. In the exposure table every argument named `reference_frame_origin` is
declared with the default `"SSB"`. The constructor registrations of
`ConstantEphemeris` are two, the one taking `constant_state_function` and the
one taking `constant_state`; both declare `reference_frame_origin` with default
`"SSB"`, and a call that gives the state only, by position or by keyword,
forwards the state, `"SSB"` and `"ECLIPJ2000"` to the native constructor. -/
theorem reference_frame_origin_defaults_to_SSB :
    (∀ r ∈ exposureTable, ∀ a ∈ r.args, a.name = "reference_frame_origin" →
        a.defaultValue = some (DefaultValue.text "SSB"))
      ∧ constantEphemerisInits.map (fun r => r.args.map PyArg.name)
        = [["constant_state_function", "reference_frame_origin", "reference_frame_orientation"],
           ["constant_state", "reference_frame_origin", "reference_frame_orientation"]]
      ∧ (∀ r ∈ constantEphemerisInits,
          PyArg.mk "reference_frame_origin" (some (DefaultValue.text "SSB")) ∈ r.args)
      ∧ (∀ r ∈ constantEphemerisInits, ∀ (β : Type) (state : β),
          forwardedArgs r.args [state] []
            = some [Sum.inl state, Sum.inr (DefaultValue.text "SSB"),
                Sum.inr (DefaultValue.text "ECLIPJ2000")])
      ∧ ∀ (β : Type) (state : β),
          @forwardedArgs β
              [PyArg.mk "constant_state" none,
               PyArg.mk "reference_frame_origin" (some (DefaultValue.text "SSB")),
               PyArg.mk "reference_frame_orientation" (some (DefaultValue.text "ECLIPJ2000"))]
              [] [("constant_state", state)]
            = some [Sum.inl state, Sum.inr (DefaultValue.text "SSB"),
                Sum.inr (DefaultValue.text "ECLIPJ2000")] := by
  refine ⟨by decide!, by decide!, by decide!, ?_, ?_⟩
  · intro r hr β state
    rw [constantEphemerisInits_eq] at hr
    simp only [List.mem_cons, List.mem_singleton, List.not_mem_nil, or_false] at hr
    rcases hr with rfl | rfl <;> rfl
  · intro β state
    rfl

/-- C13. Any two registrations of one name under one class are one and the same
registration (same native member, same setter, same arguments); the only name
registered twice is `get_epoch` on `Tle`, both times for `te::Tle::getEpoch`.
Hence every permutation of the registrations resolves each class and name to
the same registration, whether the first registration of a name is consulted or
the last one replaces the others. Constructors are registered without a name
and, within a class, differ in their parameter types. -/
theorem resolution_independent_of_registration_order :
    ConsistentNames exposureTable
      ∧ (exposureTable.filter fun r => r.cls == "Tle" && r.name == some "get_epoch").map
          Registration.target = ["te::Tle::getEpoch", "te::Tle::getEpoch"]
      ∧ (∀ t, List.Perm exposureTable t → ∀ cls name,
          resolveFirst t cls name = resolveFirst exposureTable cls name
            ∧ resolveLast t cls name = resolveLast exposureTable cls name
            ∧ resolveLast exposureTable cls name = resolveFirst exposureTable cls name)
      ∧ ((exposureTable.filter fun r => r.kind == RegistrationKind.init).map
          fun r => (r.cls, r.target)).Nodup := by
  refine ⟨exposureTable_consistent, by decide!, ?_, by decide!⟩
  intro t hperm cls name
  refine ⟨find?_perm_of_consistent _ _ hperm exposureTable_consistent cls name, ?_, ?_⟩
  · unfold resolveLast
    have h1 := find?_perm_of_consistent exposureTable t.reverse
      (hperm.trans (List.reverse_perm t).symm) exposureTable_consistent cls name
    have h2 := find?_perm_of_consistent exposureTable exposureTable.reverse
      (List.reverse_perm exposureTable).symm exposureTable_consistent cls name
    rw [h1, h2]
  · exact find?_perm_of_consistent exposureTable exposureTable.reverse
      (List.reverse_perm exposureTable).symm exposureTable_consistent cls name

end aerodynamics
end tudat
